import Mathlib

/-!
Shallow embedding of the `travelport_flight_search` Odoo module:
the flight-search wizard (validation constraints, request builder,
response interpreter, offer selection) from
`wizard/flight_search_wizard.py`, and the mock Travelport server from
`mock_server/travelport_mock_server.py`.

JSON-like documents exchanged with the API are modelled by the dynamic
value type `PyVal`; Python floats are modelled by exact rationals (the
claims under study do not depend on binary floating-point rounding).
Python runtime exceptions other than the module's own `UserError`
raises (AttributeError on `.get` of a non-dict, TypeError on
unhashable keys, and so on) are modelled by the `PyErr` error type.
-/

set_option linter.unusedVariables false
set_option allowUnsafeReducibility true
attribute [local semireducible] Rat.add Rat.mul Rat.sub Rat.div Rat.neg Rat.inv

/-- Python-like dynamic values: the shape of the JSON documents the
wizard and the mock server exchange. Dict entries keep insertion order;
lookups take the last binding for a key (the semantics of building a
dict / `json.loads`). -/
inductive PyVal : Type where
  | none : PyVal
  | bool : Bool → PyVal
  | num : ℚ → PyVal
  | str : String → PyVal
  | list : List PyVal → PyVal
  | dict : List (String × PyVal) → PyVal

/-- Python class of runtime exception raised by an operation on a
value of the wrong dynamic type. -/
inductive PyErr : Type where
  | attributeError : PyErr
  | typeError : PyErr
  | keyError : PyErr
  | valueError : PyErr
  | indexError : PyErr
deriving DecidableEq

deriving instance DecidableEq for Except

/-- Python truthiness (`bool(v)`). -/
def PyVal.truthy : PyVal → Bool
  | .none => false
  | .bool b => b
  | .num q => decide (q ≠ 0)
  | .str s => decide (s ≠ "")
  | .list xs => !xs.isEmpty
  | .dict es => !es.isEmpty

/-- Lookup in a dict representation: last binding wins (Python dict
update semantics). -/
def pyLookup (es : List (String × PyVal)) (k : String) : Option PyVal :=
  es.foldl (fun acc e => if e.1 = k then some e.2 else acc) Option.none

/-- Python `v.get(k, d)`: dictionary lookup with default; raises
AttributeError when `v` is not a dict. -/
def pyGetD (v : PyVal) (k : String) (d : PyVal) : Except PyErr PyVal :=
  match v with
  | .dict es => .ok ((pyLookup es k).getD d)
  | _ => .error .attributeError

/-- Keys that appeared so far, keeping first occurrences (dict
iteration order). -/
def keysFirstOcc : List (String × PyVal) → List String → List String
  | [], seen => []
  | e :: es, seen =>
      if e.1 ∈ seen then keysFirstOcc es seen
      else e.1 :: keysFirstOcc es (e.1 :: seen)

/-- Python iteration `for x in v`: lists yield elements, strings yield
one-character strings, dicts yield their keys; other values raise
TypeError (not iterable). -/
def pyIter (v : PyVal) : Except PyErr (List PyVal) :=
  match v with
  | .list xs => .ok xs
  | .str s => .ok (s.data.map (fun c => .str (String.mk [c])))
  | .dict es => .ok ((keysFirstOcc es []).map .str)
  | _ => .error .typeError

/-- Python `v[:n]` followed by iteration: a slice of a list or string,
TypeError otherwise. -/
def pySlice (n : Nat) (v : PyVal) : Except PyErr (List PyVal) :=
  match v with
  | .list xs => .ok (xs.take n)
  | .str s => .ok ((s.data.take n).map (fun c => .str (String.mk [c])))
  | _ => .error .typeError

/-- Python `len(v)` for sized values. -/
def pyLen (v : PyVal) : Except PyErr Nat :=
  match v with
  | .list xs => .ok xs.length
  | .str s => .ok s.length
  | .dict es => .ok (keysFirstOcc es []).length
  | _ => .error .typeError

/-- Hashable Python values usable as dict keys. `True == 1` and
`hash(True) == hash(1)` in Python, so booleans collapse to numbers. -/
inductive PyKey : Type where
  | none : PyKey
  | num : ℚ → PyKey
  | str : String → PyKey
deriving DecidableEq

/-- Conversion of a value to a dict key; unhashable containers raise
TypeError. -/
def toKey (v : PyVal) : Except PyErr PyKey :=
  match v with
  | .none => .ok .none
  | .bool b => .ok (.num (if b then 1 else 0))
  | .num q => .ok (.num q)
  | .str s => .ok (.str s)
  | _ => .error .typeError

/-- Reference maps built by the interpreter (`flight_map`,
`product_map`): association lists with Python dict assignment
semantics. -/
def KeyMap : Type := List (PyKey × PyVal)

/-- Python `m[k] = v`: replace in place if present, else append. -/
def mapInsert : List (PyKey × PyVal) → PyKey → PyVal → List (PyKey × PyVal)
  | [], k, v => [(k, v)]
  | e :: rest, k, v =>
      if e.1 = k then (k, v) :: rest else e :: mapInsert rest k v

/-- Python `m.get(k)` on the reference maps (keys are unique by
construction, so the first match is the binding). -/
def mapFind (m : List (PyKey × PyVal)) (k : PyKey) : Option PyVal :=
  (m.find? (fun e => decide (e.1 = k))).map (·.2)

/-- Python `m[k] = v` for string-keyed dicts built by the mock server. -/
def strInsert : List (String × PyVal) → String → PyVal → List (String × PyVal)
  | [], k, v => [(k, v)]
  | e :: rest, k, v =>
      if e.1 = k then (k, v) :: rest else e :: strInsert rest k v

/-- Decimal digit string of a natural number. -/
def natDigits (n : Nat) : String := toString n

/-- Rendering of a number in an f-string. The source only ever
interpolates strings here; for numbers the Python float repr is
approximated by the rational's integer part when it is integral and by
`num/den` otherwise. -/
def ratStr (q : ℚ) : String :=
  if q.den = 1 then toString q.num
  else toString q.num ++ "/" ++ natDigits q.den

/-- Python `str(v)` / f-string interpolation of a value. Containers
never reach an f-string in the claims under study; their repr is
abbreviated. -/
def pyStr : PyVal → String
  | .none => "None"
  | .bool b => if b then "True" else "False"
  | .num q => ratStr q
  | .str s => s
  | .list _ => "[...]"
  | .dict _ => "\x7b...\x7d"

/-- Round half to even of a rational toward an integer (the tie-break
Python `round` uses). -/
def rhe (q : ℚ) : ℤ :=
  let f : ℤ := ⌊q⌋
  let r : ℚ := q - f
  if r < 1/2 then f
  else if 1/2 < r then f + 1
  else if f % 2 = 0 then f else f + 1

/-- Python `round(x, 2)` on the rational model of a float. -/
def round2 (q : ℚ) : ℚ := (rhe (q * 100) : ℚ) / 100

/-- Two-digit zero-padded rendering of a residue below 100. -/
def pad2 (m : Nat) : String :=
  if m < 10 then "0" ++ natDigits m else natDigits m

/-- Rendering of a rational with exactly two decimals (`:.2f`). -/
def fmt2 (q : ℚ) : String :=
  let n : ℤ := rhe (q * 100)
  let sign := if n < 0 then "-" else ""
  let a := n.natAbs
  sign ++ natDigits (a / 100) ++ "." ++ pad2 (a % 100)

/-- Python format `f"...:.2f"` applied to a value: numbers (and bools,
which format as 0/1) succeed, everything else raises. -/
def format2f (v : PyVal) : Except PyErr String :=
  match v with
  | .num q => .ok (fmt2 q)
  | .bool b => .ok (fmt2 (if b then 1 else 0))
  | _ => .error .typeError

/-- Characters Python `str.strip()` removes. -/
def isPyWS (c : Char) : Bool :=
  c = ' ' || c = '\t' || c = '\n' || c = '\r' || c.toNat = 11 || c.toNat = 12

/-- Python `s.strip()`. -/
def pyStrip (s : String) : String :=
  String.mk (((s.data.dropWhile isPyWS).reverse.dropWhile isPyWS).reverse)

/-- Splitting of a character list at commas, with the (reversed)
current chunk as accumulator. -/
def splitCommaChars : List Char → List Char → List String
  | [], cur => [String.mk cur.reverse]
  | c :: rest, cur =>
      if c = ',' then String.mk cur.reverse :: splitCommaChars rest []
      else splitCommaChars rest (c :: cur)

/-- Python `s.split(',')`. -/
def pySplitComma (s : String) : List String := splitCommaChars s.data []

/-- Stripped, non-empty entries of a comma-separated string: the list
comprehension `[a.strip() for a in s.split(',') if a.strip()]` used for
child ages. -/
def pySplitStrip (s : String) : List String :=
  ((pySplitComma s).map pyStrip).filter (fun a => decide (a ≠ ""))

/-- Digit-run parser for Python `int`: ASCII digits with single
underscores allowed only between digits. The boolean records whether
the previous character was a digit. -/
def goDigits : List Char → Bool → Nat → Option Nat
  | [], prevDigit, acc => if prevDigit then some acc else Option.none
  | c :: cs, prevDigit, acc =>
      if c.isDigit then goDigits cs true (acc * 10 + (c.toNat - 48))
      else if c = '_' then
        (if prevDigit then goDigits cs false acc else Option.none)
      else Option.none

/-- Python `int(s)`: optional surrounding whitespace, optional sign,
non-empty digit run; `ValueError` is modelled by `Option.none`. -/
def pyInt (s : String) : Option Int :=
  match (pyStrip s).data with
  | '+' :: rest => (goDigits rest false 0).map Int.ofNat
  | '-' :: rest => (goDigits rest false 0).map (fun n => -(n : ℤ))
  | rest => (goDigits rest false 0).map Int.ofNat

/-- Containment of `pat` at the head of `hay`. -/
def startsWithChars : List Char → List Char → Bool
  | _, [] => true
  | [], _ :: _ => false
  | h :: t, p :: ps => h = p && startsWithChars t ps

/-- Substring containment on character lists. -/
def hasSubChars : List Char → List Char → Bool
  | [], pat => pat.isEmpty
  | h :: t, pat => startsWithChars (h :: t) pat || hasSubChars t pat

/-- Python `k in v` for a string `k`: key membership for dicts,
substring for strings, element equality for lists. -/
def pyContains (v : PyVal) (k : String) : Except PyErr Bool :=
  match v with
  | .dict es => .ok (es.any (fun e => decide (e.1 = k)))
  | .str s => .ok (hasSubChars s.data k.data)
  | .list xs =>
      .ok (xs.any (fun x => match x with | .str t => decide (t = k) | _ => false))
  | _ => .error .typeError

/-- Python `v[k]` subscription with a string key. -/
def pySubscriptStr (v : PyVal) (k : String) : Except PyErr PyVal :=
  match v with
  | .dict es =>
      match pyLookup es k with
      | some x => .ok x
      | Option.none => .error .keyError
  | _ => .error .typeError

/-- Python `v[i]` subscription with a small natural index (used as
`search_criteria[0]` and `[1]` after length checks). -/
def pySubscriptNat (v : PyVal) (i : Nat) : Except PyErr PyVal :=
  match v with
  | .list xs =>
      match xs.get? i with
      | some x => .ok x
      | Option.none => .error .indexError
  | .str s =>
      match s.data.get? i with
      | some c => .ok (.str (String.mk [c]))
      | Option.none => .error .indexError
  | .dict es => .error .keyError
  | _ => .error .typeError

/-- Numeric coercion used by `sum(...)`: numbers and bools add, other
values raise TypeError. -/
def pyToNum (v : PyVal) : Except PyErr ℚ :=
  match v with
  | .num q => .ok q
  | .bool b => .ok (if b then 1 else 0)
  | _ => .error .typeError

/-- Python `s.upper()` (ASCII; the airport codes in play are ASCII). -/
def pyUpper (s : String) : String := String.mk (s.data.map Char.toUpper)

/-- Python `v.upper()` on a dynamic value. -/
def pyUpperV (v : PyVal) : Except PyErr String :=
  match v with
  | .str s => .ok (pyUpper s)
  | _ => .error .attributeError

/-! ## Wizard data model (`FlightSearchWizard` fields) -/

/-- Calendar date as stored in the wizard's Date fields. Python
compares `datetime.date` values lexicographically on
(year, month, day). -/
structure PyDate where
  year : Nat
  month : Nat
  day : Nat
deriving DecidableEq

/-- Python `d1 <= d2` on dates. -/
def dateLE (a b : PyDate) : Bool :=
  if a.year ≠ b.year then decide (a.year < b.year)
  else if a.month ≠ b.month then decide (a.month < b.month)
  else decide (a.day ≤ b.day)

/-- Four-digit zero-padded year. -/
def pad4 (n : Nat) : String :=
  if n < 10 then "000" ++ natDigits n
  else if n < 100 then "00" ++ natDigits n
  else if n < 1000 then "0" ++ natDigits n
  else natDigits n

/-- Python `d.strftime('%Y-%m-%d')`. -/
def fmtDate (d : PyDate) : String :=
  pad4 d.year ++ "-" ++ pad2 d.month ++ "-" ++ pad2 d.day

/-- Search-criteria fields of `travelport.flight.search.wizard`. The
`departure_date` field is required with a default, so it is modelled as
always present; `return_date` and unset Char fields follow the Odoo
convention of reading as falsy when unset (`Option.none` / `""`). -/
structure Wizard where
  origin : String
  destination : String
  departure_date : PyDate
  is_round_trip : Bool
  return_date : Option PyDate
  passenger_adult_count : Int
  passenger_child_count : Int
  passenger_child_ages : String
  cabin_class : String

/-! ## Validation constraints -/

/-- Constraint `_check_child_ages`: when children are included the age
string must be non-empty and hold exactly one entry per child. -/
def checkChildAges (w : Wizard) : Except String Unit :=
  if w.passenger_child_count > 0 then
    if w.passenger_child_ages = "" then
      .error "Please enter child ages when children are included."
    else if ((pySplitStrip w.passenger_child_ages).length : ℤ) ≠ w.passenger_child_count then
      .error "Number of child ages must match number of children."
    else .ok ()
  else .ok ()

/-- Constraint `_check_return_date`: a round trip needs a return date,
and it must be strictly after the departure date. -/
def checkReturnDate (w : Wizard) : Except String Unit :=
  match w.is_round_trip, w.return_date with
  | true, Option.none => .error "Return date is required for round trip searches."
  | true, some r =>
      if dateLE r w.departure_date then
        .error "Return date must be after departure date."
      else .ok ()
  | false, _ => .ok ()

/-! ## Request builder -/

/-- One entry of the `PassengerCriteria` list built by
`_prepare_passenger_criteria`. -/
structure PassengerEntry where
  value : String
  number : Int
  age : Option Int
deriving DecidableEq

/-- Method `_prepare_passenger_criteria`: one ADT entry carrying the
adult count when positive, then one CNN entry per parseable child age;
unparseable ages are skipped (logged with a warning in the source). -/
def preparePassengerCriteria (w : Wizard) : List PassengerEntry :=
  (if w.passenger_adult_count > 0 then
    [{ value := "ADT", number := w.passenger_adult_count, age := Option.none }]
   else []) ++
  (if w.passenger_child_count > 0 then
    (pySplitStrip w.passenger_child_ages).filterMap
      (fun a => (pyInt a).map (fun n => { value := "CNN", number := 1, age := some n }))
   else [])

/-- Origin/destination object of a search leg (`From` / `To`). The
first leg carries a `cityOrAirport` annotation, the return leg does
not, exactly as in `_prepare_search_criteria_flight`. -/
structure LocRef where
  value : String
  cityOrAirport : Option String
deriving DecidableEq

/-- One element of the `SearchCriteriaFlight` list. -/
structure FlightLeg where
  departureDate : String
  From : LocRef
  To : LocRef
deriving DecidableEq

/-- Method `_prepare_search_criteria_flight`: one outbound leg, plus a
reversed return leg when `is_round_trip` and a (truthy) return date is
set. -/
def prepareSearchCriteriaFlight (w : Wizard) : List FlightLeg :=
  [{ departureDate := fmtDate w.departure_date,
     From := { value := pyUpper w.origin, cityOrAirport := some "City or Airport" },
     To := { value := pyUpper w.destination, cityOrAirport := some "City or Airport" } }] ++
  (match w.is_round_trip, w.return_date with
   | true, some r =>
       [{ departureDate := fmtDate r,
          From := { value := pyUpper w.destination, cityOrAirport := Option.none },
          To := { value := pyUpper w.origin, cityOrAirport := Option.none } }]
   | _, _ => [])

/-! ## Response interpreter (`_process_flight_results`) -/

/-- Values dict of one `travelport.flight.offer` record created by the
interpreter. `raw` models `json.dumps(offering)` by retaining the
offering value itself. -/
structure Offer where
  offer_id : PyVal
  price : PyVal
  currency : PyVal
  flight_details : String
  raw : PyVal
  selected : Bool

/-- Result type of `_process_flight_results`: the two explicit
`UserError` raises of the method, plus propagated Python runtime
exceptions. -/
inductive InterpErr : Type where
  | noValidResponse : InterpErr
  | noFlightOffersFound : InterpErr
  | exc : PyErr → InterpErr
deriving DecidableEq

/-- Propagation of a Python runtime exception into the interpreter's
result. -/
def liftE {α : Type} (x : Except PyErr α) : Except InterpErr α :=
  match x with
  | .ok a => .ok a
  | .error e => .error (.exc e)

/-- Airport-code extraction tolerating a plain code or a
`\x7bvalue: code\x7d` object (the two formats the source accepts). -/
def codeOf (obj : PyVal) : PyVal :=
  match obj with
  | .dict es => (pyLookup es "value").getD (.str "")
  | v => v

/-- Rendering of one resolved flight record as an itinerary line:
`<carrier><number>: <origin> → <destination>` with optional departure
and arrival time suffixes; nothing is produced unless both carrier and
number are truthy. Shared verbatim by the product path (lines 395-413)
and the direct-reference fallback path (lines 420-435) of the source. -/
def renderFlight (flight : PyVal) : Except PyErr (List String) := do
  let carrier ← pyGetD flight "carrier" (.str "")
  let number ← pyGetD flight "number" (.str "")
  let departure ← pyGetD flight "departureTime" (.str "")
  let arrival ← pyGetD flight "arrivalTime" (.str "")
  let originObj ← pyGetD flight "Origin" (.dict [])
  let destObj ← pyGetD flight "Destination" (.dict [])
  let originCode := codeOf originObj
  let destCode := codeOf destObj
  if carrier.truthy && number.truthy then
    let line0 := pyStr carrier ++ pyStr number ++ ": " ++ pyStr originCode ++ " → " ++ pyStr destCode
    let line1 := if departure.truthy then line0 ++ " (Dep: " ++ pyStr departure ++ ")" else line0
    let line2 := if arrival.truthy then line1 ++ " (Arr: " ++ pyStr arrival ++ ")" else line1
    pure [line2]
  else
    pure []

/-- Flight id of a segment's `Flight` entry: the `FlightRef` key when
the entry is a dict, the entry itself otherwise. -/
def segmentFlightId (flightRefV : PyVal) : PyVal :=
  match flightRefV with
  | .dict es => (pyLookup es "FlightRef").getD .none
  | v => v

/-- Processing of one `FlightSegment` entry: resolve the segment's
flight id (either a `FlightRef` inside a dict or the value itself) in
the flight map and render it. -/
def segLines (fm : List (PyKey × PyVal)) (segment : PyVal) : Except PyErr (List String) := do
  let flightRefV ← pyGetD segment "Flight" (.dict [])
  let flightId := segmentFlightId flightRefV
  if flightId.truthy then
    let k ← toKey flightId
    let flight := (mapFind fm k).getD .none
    if flight.truthy then renderFlight flight else pure []
  else
    pure []

/-- Processing of one product reference through the product map: when
the reference resolves to a `ProductAir` product, render the lines of
all its flight segments in order. -/
def productLines (fm pm : List (PyKey × PyVal)) (productRef : PyVal) : Except PyErr (List String) := do
  let k ← toKey productRef
  let product := (mapFind pm k).getD .none
  if product.truthy then
    let t ← pyGetD product "@type" .none
    if (match t with | .str s => decide (s = "ProductAir") | _ => false) then
      let segsV ← pyGetD product "FlightSegment" (.list [])
      let segs ← pyIter segsV
      let lss ← segs.mapM (segLines fm)
      pure lss.flatten
    else pure []
  else pure []

/-- First detail loop of the source (over `product_refs[:5]`, the
truncation is applied by the caller). -/
def productLoop (fm pm : List (PyKey × PyVal)) (refs : List PyVal) : Except PyErr (List String) := do
  let lss ← refs.mapM (productLines fm pm)
  pure lss.flatten

/-- Second detail loop: legacy direct flight references looked up in
the flight map, rendered identically. -/
def directLoop (fm : List (PyKey × PyVal)) (refs : List PyVal) : Except PyErr (List String) := do
  let lss ← refs.mapM (fun r => do
    let k ← toKey r
    let flight := (mapFind fm k).getD .none
    if flight.truthy then renderFlight flight else pure [])
  pure lss.flatten

/-- Extraction of the product references of one offering from its
`ProductOptions`: a `ProductRef` indirection or a legacy `FlightRefs`
list per option. -/
def extractProductRefs (offering : PyVal) : Except PyErr (List PyVal) := do
  let po ← pyGetD offering "ProductOptions" (.list [])
  let options ← pyIter po
  options.foldlM (fun acc option => do
    let hasPR ← pyContains option "ProductRef"
    if hasPR then do
      let v ← pySubscriptStr option "ProductRef"
      pure (acc ++ [v])
    else do
      let hasFR ← pyContains option "FlightRefs"
      if hasFR then do
        let frv ← pyGetD option "FlightRefs" (.list [])
        let frs ← pyIter frv
        pure (acc ++ frs)
      else pure acc) []

/-- Flight-detail collection for one offering: the product-reference
loop over the first 5 references, then, only when it produced nothing,
the direct-reference loop over all references. -/
def collectDetails (fm pm : List (PyKey × PyVal)) (refs : List PyVal) : Except PyErr (List String) := do
  let d ← productLoop fm pm (refs.take 5)
  if d.isEmpty then directLoop fm refs else pure d

/-- Processing of one offering (one iteration of the main loop of
`_process_flight_results`) into an offer-record values dict. -/
def processOffering (w : Wizard) (fm pm : List (PyKey × PyVal)) (idx : Nat)
    (offering : PyVal) : Except PyErr Offer := do
  let offeringId ← pyGetD offering "id" (.str "")
  let totalPrice ← pyGetD offering "TotalPrice" (.dict [])
  let priceValue ← pyGetD totalPrice "value" (.num 0)
  let priceCurrency ← pyGetD totalPrice "code" (.str "USD")
  let refs ← extractProductRefs offering
  let details ← collectDetails fm pm refs
  let body :=
    if details.isEmpty then
      ["Route: " ++ w.origin ++ " → " ++ w.destination] ++
      (if w.is_round_trip then ["Return: " ++ w.destination ++ " → " ++ w.origin] else [])
    else details
  let priceNum ← format2f priceValue
  let parts := ["Flight Offer: " ++ pyStr offeringId] ++ body ++
    ["Price: " ++ pyStr priceCurrency ++ " " ++ priceNum]
  pure { offer_id := offeringId, price := priceValue, currency := priceCurrency,
         flight_details := String.intercalate "\n" parts, raw := offering,
         selected := idx == 0 }

/-- The main loop over the (truncated) offering list, with the running
index that marks the first offer as selected. -/
def processOfferings (w : Wizard) (fm pm : List (PyKey × PyVal)) :
    Nat → List PyVal → Except PyErr (List Offer)
  | _, [] => .ok []
  | idx, o :: os => do
      let off ← processOffering w fm pm idx o
      let rest ← processOfferings w fm pm (idx + 1) os
      pure (off :: rest)

/-- Construction of the `flight_map` and `product_map` lookup tables
from the `ReferenceList` entries, dispatching on the `@type`
discriminator and ignoring unknown types. -/
def buildRefMaps (refItems : List PyVal) :
    Except PyErr (List (PyKey × PyVal) × List (PyKey × PyVal)) :=
  refItems.foldlM (fun maps refItem => do
    let t ← pyGetD refItem "@type" (.str "")
    if (match t with | .str s => decide (s = "ReferenceListFlight") | _ => false) then do
      let flV ← pyGetD refItem "Flight" (.list [])
      let flights ← pyIter flV
      let fm ← flights.foldlM (fun fm flight => do
        let fid ← pyGetD flight "id" .none
        if fid.truthy then do
          let k ← toKey fid
          pure (mapInsert fm k flight)
        else pure fm) maps.1
      pure (fm, maps.2)
    else if (match t with | .str s => decide (s = "ReferenceListProduct") | _ => false) then do
      let prV ← pyGetD refItem "Product" (.list [])
      let products ← pyIter prV
      let pm ← products.foldlM (fun pm product => do
        let pid ← pyGetD product "id" .none
        if pid.truthy then do
          let k ← toKey pid
          pure (mapInsert pm k product)
        else pure pm) maps.2
      pure (maps.1, pm)
    else pure maps) ([], [])

/-- Method `_process_flight_results`: hard `UserError` when the
top-level `CatalogProductOfferingsResponse` is missing or falsy, a
"no flight offers found" `UserError` when the offering list is falsy,
otherwise the offer records built from the first 50 offerings. -/
def processFlightResults (w : Wizard) (rd : PyVal) : Except InterpErr (List Offer) := do
  let top ← liftE (pyGetD rd "CatalogProductOfferingsResponse" .none)
  if top.truthy = false then .error .noValidResponse
  else do
    let catalogOff ← liftE (pyGetD top "CatalogProductOfferings" (.dict []))
    let offListV ← liftE (pyGetD catalogOff "CatalogProductOffering" (.list []))
    if offListV.truthy = false then .error .noFlightOffersFound
    else do
      let refListV ← liftE (pyGetD top "ReferenceList" (.list []))
      let refItems ← liftE (pyIter refListV)
      let maps ← liftE (buildRefMaps refItems)
      let offSlice ← liftE (pySlice 50 offListV)
      liftE (processOfferings w maps.1 maps.2 0 offSlice)

/-- Offering list of a response document, as the interpreter reads it
(present only when the response is shaped as nested dicts holding an
actual list). -/
def offeringsListOf (rd : PyVal) : Option (List PyVal) :=
  match pyGetD rd "CatalogProductOfferingsResponse" .none with
  | .ok top =>
      match pyGetD top "CatalogProductOfferings" (.dict []) with
      | .ok co =>
          match pyGetD co "CatalogProductOffering" (.list []) with
          | .ok (.list xs) => some xs
          | _ => Option.none
      | _ => Option.none
  | _ => Option.none

/-! ## Mock Travelport server (`travelport_mock_server.py`) -/

/-- One row of the static `MOCK_FLIGHTS` table. -/
structure MockFlight where
  carrier : String
  number : String
  origin : String
  destination : String
  departure_time : String
  arrival_time : String
  aircraft : String
deriving DecidableEq

/-- Static flight table of the mock server. -/
def MOCK_FLIGHTS : List MockFlight :=
  [{ carrier := "BA", number := "117", origin := "LHR", destination := "JFK",
     departure_time := "08:25:00", arrival_time := "11:05:00", aircraft := "777" },
   { carrier := "AA", number := "100", origin := "LHR", destination := "JFK",
     departure_time := "10:30:00", arrival_time := "13:15:00", aircraft := "787" },
   { carrier := "VS", number := "4", origin := "LHR", destination := "JFK",
     departure_time := "12:00:00", arrival_time := "14:45:00", aircraft := "A350" },
   { carrier := "DL", number := "1", origin := "JFK", destination := "LHR",
     departure_time := "22:00:00", arrival_time := "09:30:00", aircraft := "A330" },
   { carrier := "BA", number := "178", origin := "JFK", destination := "LHR",
     departure_time := "20:15:00", arrival_time := "07:45:00", aircraft := "777" }]

/-- The `BASE_PRICES` table keyed by cabin-class name. -/
def basePriceTable (s : String) : Option ℚ :=
  if s = "Economy" then some 450
  else if s = "Premium Economy" then some 850
  else if s = "Business" then some 2500
  else if s = "First" then some 5000
  else Option.none

/-- Python `BASE_PRICES.get(cabin_class, BASE_PRICES['Economy'])`:
any hashable key falls back to the Economy price when absent,
unhashable keys raise TypeError. -/
def basePriceLookup (cabin : PyVal) : Except PyErr ℚ := do
  let k ← toKey cabin
  match k with
  | .str s => pure ((basePriceTable s).getD 450)
  | _ => pure 450

/-- Jitter factor fed to the pricing from one raw random draw:
`random.uniform(-0.1, 0.1)` modelled as the affine image of the
fractional part of the draw, giving a value in [-1/10, 1/10). -/
def uniformJitter (raw : ℚ) : ℚ := -(1/10) + (1/5) * (raw - ⌊raw⌋)

/-- Function `calculate_price`: base price for the cabin (the
`base_price` argument is received but never read, exactly as in the
source), times passenger count, times 1.8 for a round trip, times
`1 + uniform(-0.1, 0.1)`, rounded to 2 decimals. -/
def calculate_price (basePriceArg : ℚ) (cabinClass : PyVal) (numPassengers : ℚ)
    (isRoundTrip : Bool) (u : ℚ) : Except PyErr ℚ := do
  let p0 ← basePriceLookup cabinClass
  let p1 := p0 * numPassengers
  let p2 := if isRoundTrip then p1 * (9/5 : ℚ) else p1
  let p3 := p2 * (1 + u)
  pure (round2 p3)

/-- Function `get_mock_flights_for_route`: outbound rows matching the
uppercased origin/destination, and (when a return date is truthy) the
reverse-direction rows. The `departure_date` argument is unused, as in
the source. -/
def get_mock_flights_for_route (origin destination departureDate retDate : PyVal) :
    Except PyErr (List MockFlight × List MockFlight) := do
  let o ← pyUpperV origin
  let d ← pyUpperV destination
  let outbound := MOCK_FLIGHTS.filter (fun f => f.origin == o && f.destination == d)
  let ret :=
    if retDate.truthy then
      MOCK_FLIGHTS.filter (fun f => f.origin == d && f.destination == o)
    else []
  pure (outbound, ret)

/-- Function `build_flight_reference`. -/
def build_flight_reference (f : MockFlight) (fid : String) (dateV : PyVal) : PyVal :=
  .dict [("@type", .str "Flight"), ("id", .str fid),
         ("carrier", .str f.carrier), ("number", .str f.number),
         ("departureTime", .str (pyStr dateV ++ "T" ++ f.departure_time)),
         ("arrivalTime", .str (pyStr dateV ++ "T" ++ f.arrival_time)),
         ("Origin", .dict [("value", .str f.origin)]),
         ("Destination", .dict [("value", .str f.destination)]),
         ("Aircraft", .dict [("value", .str f.aircraft)])]

/-- One flight segment of `build_product_air` at position `idx` of
`total` flights. -/
def mockSegment (productId : String) (idx : Nat) (total : Nat) : PyVal :=
  .dict ([("@type", .str "FlightSegment"), ("sequence", .num (idx + 1)),
          ("Flight", .dict [("@type", .str "FlightID"),
                            ("FlightRef", .str ("Flight_" ++ productId ++ "_" ++ natDigits idx))])] ++
         (if idx + 1 < total then [("connectionDuration", .str "PT2H30M")] else []))

/-- Function `build_product_air`: the ProductAir dict and the generated
flight ids. The `departure_date` parameter of the source is unused. -/
def build_product_air (flights : List MockFlight) (productId : String) (dateArg : PyVal) :
    PyVal × List String :=
  (.dict [("@type", .str "ProductAir"), ("id", .str productId), ("Quantity", .num 1),
          ("FlightSegment", .list ((List.range flights.length).map
            (fun idx => mockSegment productId idx flights.length)))],
   (List.range flights.length).map (fun idx => "Flight_" ++ productId ++ "_" ++ natDigits idx))

/-- Request fields the mock extracts before generating offers. -/
structure ExtractedReq where
  origin : PyVal
  destination : PyVal
  depDate : PyVal
  retDate : PyVal
  totalPassengers : ℚ
  cabinClass : PyVal

/-- Criteria-extraction prelude of `search_flights`; `Option.none`
models the 400 "No search criteria provided" early return. -/
def extractReq (data : PyVal) : Except PyErr (Option ExtractedReq) := do
  let qr ← pyGetD data "CatalogProductOfferingsQueryRequest" (.dict [])
  let cr ← pyGetD qr "CatalogProductOfferingsRequest" (.dict [])
  let scV ← pyGetD cr "SearchCriteriaFlight" (.list [])
  let pcV ← pyGetD cr "PassengerCriteria" (.list [])
  if scV.truthy = false then pure Option.none
  else do
    let outbound ← pySubscriptNat scV 0
    let fromV ← pyGetD outbound "From" (.dict [])
    let origin ← pyGetD fromV "value" (.str "")
    let toV ← pyGetD outbound "To" (.dict [])
    let destination ← pyGetD toV "value" (.str "")
    let depDate ← pyGetD outbound "departureDate" (.str "")
    let n ← pyLen scV
    let retDate ←
      if 1 < n then do
        let rc ← pySubscriptNat scV 1
        pyGetD rc "departureDate" (.str "")
      else pure PyVal.none
    let pcs ← pyIter pcV
    let pax ← pcs.foldlM (fun acc p => do
      let nv ← pyGetD p "number" (.num 1)
      let q ← pyToNum nv
      pure (acc + q)) (0 : ℚ)
    let cabinV ← pyGetD cr "Cabin" (.list [])
    let cabin ← if cabinV.truthy then pySubscriptNat cabinV 0 else pure (PyVal.str "Economy")
    pure (some { origin := origin, destination := destination, depDate := depDate,
                 retDate := retDate, totalPassengers := pax, cabinClass := cabin })

/-- Randomness consumed by the mock server, supplied as an oracle:
`numOffersRaw` drives `random.randint(3, 5)` (modelled as
`3 + raw % 3`), `choiceOut`/`choiceRet` drive the two `random.choice`
calls per offer, `jitter` drives `random.uniform(-0.1, 0.1)`. -/
structure MockRand where
  numOffersRaw : Nat
  choiceOut : Nat → Nat
  choiceRet : Nat → Nat
  jitter : Nat → ℚ

/-- Placeholder row for the guarded `List.getD` modelling of
`random.choice` (never selected: choices happen only on non-empty
lists). -/
def defaultMockFlight : MockFlight :=
  { carrier := "", number := "", origin := "", destination := "",
    departure_time := "", arrival_time := "", aircraft := "" }

/-- One iteration of the offer-generation loop of `search_flights`:
the offering dict, the ProductAir dict, and the flight references
keyed by generated id. -/
def buildOneOffer (outbound ret : List MockFlight) (depDate retDate cabin : PyVal)
    (pax : ℚ) (r : MockRand) (k : Nat) :
    Except PyErr (PyVal × PyVal × List (String × PyVal)) := do
  let selectedOut := outbound.getD (r.choiceOut k % outbound.length) defaultMockFlight
  let flightList :=
    [selectedOut] ++
    (if ret.isEmpty then []
     else [ret.getD (r.choiceRet k % ret.length) defaultMockFlight])
  let productId := "Product_" ++ natDigits k
  let productAir := (build_product_air flightList productId depDate).1
  let refs := (List.range flightList.length).map (fun idx =>
    let fid := "Flight_" ++ productId ++ "_" ++ natDigits idx
    (fid, build_flight_reference (flightList.getD idx defaultMockFlight) fid
      (if idx = 0 then depDate else retDate)))
  let bp ← basePriceLookup cabin
  let price ← calculate_price bp cabin pax retDate.truthy (uniformJitter (r.jitter k))
  let offering : PyVal :=
    .dict [("@type", .str "CatalogProductOffering"),
           ("id", .str ("Offer_" ++ natDigits k)),
           ("TotalPrice", .dict [("code", .str "USD"), ("value", .num price)]),
           ("ProductOptions", .list [.dict [("@type", .str "ProductOption"),
                                            ("ProductRef", .str productId)]])]
  pure (offering, productAir, refs)

/-- Response body returned when no outbound flight matches: an
explicitly empty offering list with an empty reference list. -/
def emptyResponseBody : PyVal :=
  .dict [("CatalogProductOfferingsResponse",
          .dict [("CatalogProductOfferings",
                  .dict [("CatalogProductOffering", .list [])]),
                 ("ReferenceList", .list [])])]

/-- Assembled success body from the generated offerings, flight map and
products. -/
def mockBody (offerings : List PyVal) (flightVals : List PyVal) (products : List PyVal) : PyVal :=
  .dict [("CatalogProductOfferingsResponse",
          .dict [("CatalogProductOfferings",
                  .dict [("CatalogProductOffering", .list offerings)]),
                 ("ReferenceList",
                  .list [.dict [("@type", .str "ReferenceListFlight"),
                                ("Flight", .list flightVals)],
                         .dict [("@type", .str "ReferenceListProduct"),
                                ("Product", .list products)]])])]

/-- HTTP-level outcome of the mock endpoint: a 200 body, the 400
"no search criteria" reply, or the 500 catch-all (whose json body text
is not modelled beyond the exception kind). -/
inductive MockResp : Type where
  | ok : PyVal → MockResp
  | badRequest : MockResp
  | serverError : PyErr → MockResp
deriving Inhabited

/-- Offer-generation loop of `search_flights`, accumulating offerings,
products and the flight map in loop order. -/
def mockOfferLoop (outbound ret : List MockFlight) (depDate retDate cabin : PyVal)
    (pax : ℚ) (r : MockRand) :
    List Nat → (List PyVal × List PyVal × List (String × PyVal)) →
    Except PyErr (List PyVal × List PyVal × List (String × PyVal))
  | [], acc => .ok acc
  | k :: ks, acc => do
      let step ← buildOneOffer outbound ret depDate retDate cabin pax r k
      mockOfferLoop outbound ret depDate retDate cabin pax r ks
        (acc.1 ++ [step.1], acc.2.1 ++ [step.2.1],
         step.2.2.foldl (fun m e => strInsert m e.1 e.2) acc.2.2)

/-- Body of the `try` block of `search_flights`. -/
def mockMain (data : PyVal) (r : MockRand) : Except PyErr MockResp := do
  match (← extractReq data) with
  | Option.none => pure .badRequest
  | some req => do
      let routes ← get_mock_flights_for_route req.origin req.destination req.depDate req.retDate
      if routes.1.isEmpty then pure (.ok emptyResponseBody)
      else do
        let numOffers := 3 + r.numOffersRaw % 3
        let acc ← mockOfferLoop routes.1 routes.2 req.depDate req.retDate req.cabinClass
          req.totalPassengers r (List.range numOffers) ([], [], [])
        pure (.ok (mockBody acc.1 (acc.2.2.map (·.2)) acc.2.1))

/-- Endpoint `search_flights`: the `try` body with the catch-all
`except` turning any exception into a 500 reply. -/
def searchFlights (data : PyVal) (r : MockRand) : MockResp :=
  match mockMain data r with
  | .ok resp => resp
  | .error e => .serverError e

/-- Offering list read back out of a response body. -/
def bodyOfferings (body : PyVal) : Option (List PyVal) := offeringsListOf body

/-! ## Offer selection (`action_add_selected_offers`) -/

/-- Values dict of the created `sale.order.line` (the `order_id` field
is the id of the bound sales order and carries no information here). -/
structure OrderLineVals where
  name : String
  product_uom_qty : Int
  price_unit : PyVal
  product_id : Bool

/-- Method `action_add_selected_offers`: error when no offers are
stored, otherwise a sales-order line built from the first stored offer
(the selection flags are never consulted). -/
def actionAddSelectedOffers (offers : List Offer) : Except String OrderLineVals :=
  match offers with
  | [] => .error "No flight offers available to add."
  | first :: rest =>
      .ok { name := first.flight_details, product_uom_qty := 1,
            price_unit := first.price, product_id := false }

/-! ## Helper lemmas -/

/-- Inversion of a successful monadic bind in `Except`. -/
theorem exceptBindOk {ε α β : Type} {x : Except ε α} {f : α → Except ε β} {b : β}
    (h : (x >>= f) = .ok b) : ∃ a, x = .ok a ∧ f a = .ok b := by
  cases x with
  | ok a => exact ⟨a, rfl, h⟩
  | error e => simp [Bind.bind, Except.bind] at h

/-- Length of a `filterMap` whose function maps through an `Option`. -/
theorem filterMapMapLength {α β γ : Type} (l : List α) (f : α → Option β) (g : α → β → γ) :
    (l.filterMap (fun a => (f a).map (g a))).length = l.countP (fun a => (f a).isSome) := by
  induction l with
  | nil => rfl
  | cons a t ih =>
      cases hfa : f a with
      | none => simp [List.filterMap_cons, List.countP_cons, hfa, ih]
      | some b => simp [List.filterMap_cons, List.countP_cons, hfa, ih]

/-! ## Offer selection: claim C5 -/

/-- C5: `action_add_selected_offers` always creates the sales-order
line from the first offer in the stored offer list, regardless of which
offer's selection flag is set, and fails exactly when the offer list is
empty. -/
theorem C5_add_selected_uses_first_offer :
    ∀ offers : List Offer,
      ((∃ m, actionAddSelectedOffers offers = .error m) ↔ offers = []) ∧
      (∀ first rest, offers = first :: rest →
        actionAddSelectedOffers offers =
          .ok { name := first.flight_details, product_uom_qty := 1,
                price_unit := first.price, product_id := false }) ∧
      (∀ f : Offer → Bool,
        actionAddSelectedOffers (offers.map (fun o => { o with selected := f o })) =
          actionAddSelectedOffers offers) := by
  intro offers
  refine ⟨?_, ?_, ?_⟩
  · cases offers <;> simp [actionAddSelectedOffers]
  · intro first rest h
    subst h
    rfl
  · intro f
    cases offers <;> simp [actionAddSelectedOffers]

/-- Sample stored offer with the selection flag cleared. -/
def offerA : Offer :=
  { offer_id := .str "o1", price := .num 100, currency := .str "USD",
    flight_details := "BA117: LHR → JFK", raw := .none, selected := false }

/-- Sample stored offer with the selection flag set. -/
def offerB : Offer :=
  { offer_id := .str "o2", price := .num 200, currency := .str "USD",
    flight_details := "AA100: LHR → JFK", raw := .none, selected := true }

/-- Witness for C5: with the second offer selected and the first not,
the line is still built from the first offer, and the empty list
fails. -/
theorem C5_witness :
    actionAddSelectedOffers [offerA, offerB] =
      .ok { name := offerA.flight_details, product_uom_qty := 1,
            price_unit := offerA.price, product_id := false } ∧
    (∃ m, actionAddSelectedOffers ([] : List Offer) = .error m) := by
  constructor
  · exact (C5_add_selected_uses_first_offer [offerA, offerB]).2.1 offerA [offerB] rfl
  · exact (C5_add_selected_uses_first_offer ([] : List Offer)).1.mpr rfl

/-! ## Validation: claims C7 and C6 -/

/-- C7: for a round trip, a missing return date fails validation, and a
return date less than or equal to the departure date (equality
included) fails validation. -/
theorem C7_return_date_validation :
    ∀ w : Wizard, w.is_round_trip = true →
      (w.return_date = Option.none → ∃ m, checkReturnDate w = .error m) ∧
      (∀ r, w.return_date = some r → dateLE r w.departure_date = true →
        ∃ m, checkReturnDate w = .error m) := by
  intro w hrt
  constructor
  · intro hnone
    refine ⟨"Return date is required for round trip searches.", ?_⟩
    simp [checkReturnDate, hrt, hnone]
  · intro r hr hle
    refine ⟨"Return date must be after departure date.", ?_⟩
    simp [checkReturnDate, hrt, hr, hle]

/-- Round-trip wizard whose return date equals its departure date. -/
def wEqDates : Wizard :=
  { origin := "LHR", destination := "JFK",
    departure_date := { year := 2026, month := 10, day := 12 },
    is_round_trip := true,
    return_date := some { year := 2026, month := 10, day := 12 },
    passenger_adult_count := 1, passenger_child_count := 0,
    passenger_child_ages := "", cabin_class := "Economy" }

/-- Witness for C7: equal departure and return dates fail the
constraint. -/
theorem C7_witness : ∃ m, checkReturnDate wEqDates = .error m :=
  (C7_return_date_validation wEqDates rfl).2
    { year := 2026, month := 10, day := 12 } rfl (by decide)

/-- C6: child count 2 with age string "5" always fails validation;
child count 2 with "5,9" passes and yields exactly the two child
passenger entries (ages 5 and 9); and during building the child entries
are exactly one per parseable age — a non-integer age contributes
nothing instead of failing (the builder is a total function). -/
theorem C6_child_ages :
    (∀ w : Wizard, w.passenger_child_count = 2 → w.passenger_child_ages = "5" →
      ∃ m, checkChildAges w = .error m) ∧
    (∀ w : Wizard, w.passenger_child_count = 2 → w.passenger_child_ages = "5,9" →
      checkChildAges w = .ok () ∧
      (preparePassengerCriteria w).filter (fun e => e.value == "CNN") =
        [{ value := "CNN", number := 1, age := some 5 },
         { value := "CNN", number := 1, age := some 9 }]) ∧
    (∀ w : Wizard, w.passenger_child_count > 0 →
      ((preparePassengerCriteria w).filter (fun e => e.value == "CNN")).length =
        (pySplitStrip w.passenger_child_ages).countP (fun a => (pyInt a).isSome)) := by
  refine ⟨?_, ?_, ?_⟩
  · intro w h1 h2
    refine ⟨"Number of child ages must match number of children.", ?_⟩
    simp only [checkChildAges, h1, h2]
    decide
  · intro w h1 h2
    constructor
    · simp only [checkChildAges, h1, h2]
      decide
    · simp only [preparePassengerCriteria, h1, h2, List.filter_append]
      by_cases ha : w.passenger_adult_count > 0 <;> simp [ha] <;> decide
  · intro w hpos
    simp only [preparePassengerCriteria, List.filter_append]
    have hadult : (if w.passenger_adult_count > 0 then
        [({ value := "ADT", number := w.passenger_adult_count, age := Option.none } : PassengerEntry)]
      else []).filter (fun e => e.value == "CNN") = [] := by
      by_cases ha : w.passenger_adult_count > 0 <;> simp [ha]
    rw [hadult]
    simp only [hpos, if_pos, List.nil_append]
    have hkeep : ((pySplitStrip w.passenger_child_ages).filterMap
        (fun a => (pyInt a).map (fun n =>
          ({ value := "CNN", number := 1, age := some n } : PassengerEntry)))).filter
          (fun e => e.value == "CNN") =
        (pySplitStrip w.passenger_child_ages).filterMap
        (fun a => (pyInt a).map (fun n =>
          ({ value := "CNN", number := 1, age := some n } : PassengerEntry))) := by
      rw [List.filter_eq_self]
      intro e he
      rcases List.mem_filterMap.mp he with ⟨a, _, hmap⟩
      cases hpa : pyInt a with
      | none => rw [hpa] at hmap; simp at hmap
      | some n => rw [hpa] at hmap; simp at hmap; rw [← hmap]; rfl
    rw [hkeep, filterMapMapLength]

/-- Wizard with two children aged "5,9". -/
def wKids : Wizard :=
  { origin := "LHR", destination := "JFK",
    departure_date := { year := 2026, month := 10, day := 12 },
    is_round_trip := false, return_date := Option.none,
    passenger_adult_count := 1, passenger_child_count := 2,
    passenger_child_ages := "5,9", cabin_class := "Economy" }

/-- Wizard with two children but a single age "5". -/
def wOneAge : Wizard :=
  { wKids with
    passenger_child_ages := "5" }

/-- Witness for C6: the mismatch fails, the matching pair passes with
two child entries. -/
theorem C6_witness :
    (∃ m, checkChildAges wOneAge = .error m) ∧
    checkChildAges wKids = .ok () ∧
    (preparePassengerCriteria wKids).filter (fun e => e.value == "CNN") =
      [{ value := "CNN", number := 1, age := some 5 },
       { value := "CNN", number := 1, age := some 9 }] := by
  refine ⟨C6_child_ages.1 wOneAge rfl rfl, ?_, ?_⟩
  · exact (C6_child_ages.2.1 wKids rfl rfl).1
  · exact (C6_child_ages.2.1 wKids rfl rfl).2

/-! ## Request builder: claim C3 -/

/-- C3: for validated criteria the `SearchCriteriaFlight` list has one
leg one-way and two legs round trip, with the second leg carrying the
return date and the first leg's origin/destination reversed. -/
theorem C3_search_criteria_legs :
    ∀ w : Wizard, checkReturnDate w = .ok () →
      (w.is_round_trip = false → (prepareSearchCriteriaFlight w).length = 1) ∧
      (w.is_round_trip = true →
        ∃ r l1 l2, w.return_date = some r ∧
          prepareSearchCriteriaFlight w = [l1, l2] ∧
          l2.departureDate = fmtDate r ∧
          l2.From.value = l1.To.value ∧ l2.To.value = l1.From.value) := by
  intro w hv
  constructor
  · intro hrt
    simp [prepareSearchCriteriaFlight, hrt]
  · intro hrt
    cases hr : w.return_date with
    | none =>
        rw [checkReturnDate] at hv
        rw [hrt, hr] at hv
        simp at hv
    | some r =>
        refine ⟨r,
          { departureDate := fmtDate w.departure_date,
            From := { value := pyUpper w.origin, cityOrAirport := some "City or Airport" },
            To := { value := pyUpper w.destination, cityOrAirport := some "City or Airport" } },
          { departureDate := fmtDate r,
            From := { value := pyUpper w.destination, cityOrAirport := Option.none },
            To := { value := pyUpper w.origin, cityOrAirport := Option.none } },
          rfl, ?_, rfl, rfl, rfl⟩
        simp [prepareSearchCriteriaFlight, hrt, hr]

/-- Round-trip wizard with a valid (later) return date. -/
def wRound : Wizard :=
  { wKids with
    is_round_trip := true,
    return_date := some { year := 2026, month := 10, day := 20 },
    passenger_child_count := 0,
    passenger_child_ages := "" }

/-- Witness for C3: the round-trip wizard builds two legs, the second
reversed and dated with the return date. -/
theorem C3_witness :
    ∃ r l1 l2, wRound.return_date = some r ∧
      prepareSearchCriteriaFlight wRound = [l1, l2] ∧
      l2.departureDate = fmtDate r ∧
      l2.From.value = l1.To.value ∧ l2.To.value = l1.From.value :=
  (C3_search_criteria_legs wRound (by decide)).2 rfl

/-! ## Mock server: claims C9 and C4 -/

/-- TotalPrice value of an offering dict, read as the response carries
it. -/
def offerTotalPriceValue (off : PyVal) : Option PyVal :=
  match off with
  | .dict es =>
      match pyLookup es "TotalPrice" with
      | some (.dict tes) => pyLookup tes "value"
      | _ => Option.none
  | _ => Option.none

/-- C9: a request whose origin/destination matches no static-table row
gets a success body whose offering list is explicitly empty, not an
error reply. -/
theorem C9_no_route_empty_success :
    ∀ (data : PyVal) (r : MockRand) (req : ExtractedReq) (rf : List MockFlight),
      extractReq data = .ok (some req) →
      get_mock_flights_for_route req.origin req.destination req.depDate req.retDate =
        .ok ([], rf) →
      searchFlights data r = .ok emptyResponseBody ∧
      bodyOfferings emptyResponseBody = some [] := by
  intro data r req rf hext hroutes
  constructor
  · unfold searchFlights mockMain
    rw [hext]
    simp only [Bind.bind, Except.bind]
    rw [hroutes]
    simp [pure, Except.pure]
  · rfl

/-- Deterministic oracle for the mock's randomness. -/
def demoRand : MockRand :=
  { numOffersRaw := 0, choiceOut := fun _ => 0, choiceRet := fun _ => 0,
    jitter := fun _ => 0 }

/-- Wizard-shaped search payload for the given one-way route with one
adult in Economy (no `Cabin` key, as the wizard omits it for Economy). -/
def payloadFor (o d : String) : PyVal :=
  .dict [("CatalogProductOfferingsQueryRequest",
          .dict [("CatalogProductOfferingsRequest",
                  .dict [("offersPerPage", .num 50),
                         ("sortBy", .str "Price-LowToHigh"),
                         ("PassengerCriteria",
                          .list [.dict [("value", .str "ADT"), ("number", .num 1)]]),
                         ("SearchCriteriaFlight",
                          .list [.dict [("departureDate", .str "2026-11-01"),
                                        ("From", .dict [("value", .str o)]),
                                        ("To", .dict [("value", .str d)])]])])])]

/-- Extracted form of `payloadFor o d`. -/
def reqFor (o d : String) : ExtractedReq :=
  { origin := .str o, destination := .str d, depDate := .str "2026-11-01",
    retDate := .none, totalPassengers := 1, cabinClass := .str "Economy" }

/-- Witness for C9: the route AAA → BBB is absent from the table and
yields the empty-offerings success body. -/
theorem C9_witness :
    searchFlights (payloadFor "AAA" "BBB") demoRand = .ok emptyResponseBody ∧
    bodyOfferings emptyResponseBody = some [] :=
  C9_no_route_empty_success (payloadFor "AAA" "BBB") demoRand (reqFor "AAA" "BBB") []
    (by rfl) (by rfl)

/-- Bounds of the round-trip jitter factor `1 + uniform(-0.1, 0.1)`. -/
theorem jitterFactorBounds (raw : ℚ) :
    9/10 ≤ 1 + uniformJitter raw ∧ 1 + uniformJitter raw ≤ 11/10 := by
  have h1 : (0:ℚ) ≤ raw - ⌊raw⌋ := by
    have := Int.fract_nonneg raw
    rwa [Int.fract] at this
  have h2 : raw - (⌊raw⌋ : ℚ) < 1 := by
    have := Int.fract_lt_one raw
    rwa [Int.fract] at this
  unfold uniformJitter
  constructor <;> nlinarith

/-- Per-iteration shape of the mock's offer generation: with a string
cabin class, one loop step succeeds and prices the offering by the
table price (Economy fallback), passenger count, round-trip multiplier
and jitter factor, rounded to two decimals. -/
theorem buildOneOffer_spec (outbound ret : List MockFlight) (dep retD : PyVal)
    (c : String) (pax : ℚ) (r : MockRand) (k : Nat) :
    ∃ off prod refs,
      buildOneOffer outbound ret dep retD (.str c) pax r k = .ok (off, prod, refs) ∧
      offerTotalPriceValue off =
        some (.num (round2 (((basePriceTable c).getD 450) * pax *
          (if retD.truthy then (9/5 : ℚ) else 1) * (1 + uniformJitter (r.jitter k))))) := by
  unfold buildOneOffer calculate_price basePriceLookup toKey
  simp only [Bind.bind, Except.bind, pure, Except.pure]
  refine ⟨_, _, _, rfl, ?_⟩
  simp [offerTotalPriceValue, pyLookup]

/-- Invariant of the offer-generation loop: it succeeds for a string
cabin class, appends exactly one offering per index, and every offering
of the result is either inherited from the accumulator or produced by
`buildOneOffer` at one of the loop indices. -/
theorem mockOfferLoop_spec (outbound ret : List MockFlight) (dep retD : PyVal)
    (c : String) (pax : ℚ) (r : MockRand) :
    ∀ (ks : List Nat) (acc : List PyVal × List PyVal × List (String × PyVal)),
      ∃ res, mockOfferLoop outbound ret dep retD (.str c) pax r ks acc = .ok res ∧
        res.1.length = acc.1.length + ks.length ∧
        ∀ off ∈ res.1, off ∈ acc.1 ∨ ∃ k ∈ ks, ∃ prod refs,
          buildOneOffer outbound ret dep retD (.str c) pax r k = .ok (off, prod, refs) := by
  intro ks
  induction ks with
  | nil =>
      intro acc
      exact ⟨acc, rfl, by simp, fun off h => Or.inl h⟩
  | cons k ks ih =>
      intro acc
      obtain ⟨off, prod, refs, hb, hp⟩ := buildOneOffer_spec outbound ret dep retD c pax r k
      obtain ⟨res, hloop, hlen, hmem⟩ := ih (acc.1 ++ [off], acc.2.1 ++ [prod],
        refs.foldl (fun m e => strInsert m e.1 e.2) acc.2.2)
      refine ⟨res, ?_, ?_, ?_⟩
      · simp only [mockOfferLoop, hb, Bind.bind, Except.bind]
        exact hloop
      · rw [hlen]
        simp
        omega
      · intro o ho
        rcases hmem o ho with h | ⟨k2, hk2, prod2, refs2, hrest⟩
        · rcases List.mem_append.mp h with h1 | h2
          · exact Or.inl h1
          · simp at h2
            subst h2
            exact Or.inr ⟨k, by simp, prod, refs, hb⟩
        · exact Or.inr ⟨k2, by simp [hk2], prod2, refs2, hrest⟩

/-- C4: a request whose outbound route matches the static table gets
3 to 5 offerings, each priced at the cabin's base price times the total
passenger count, times 1.8 when a return leg (truthy return date) is
present, times a jitter factor in [0.9, 1.1], rounded to 2 decimals. -/
theorem C4_mock_offer_count_and_pricing :
    ∀ (data : PyVal) (r : MockRand) (req : ExtractedReq) (c : String) (bp : ℚ)
      (outF retF : List MockFlight),
      extractReq data = .ok (some req) →
      req.cabinClass = .str c →
      basePriceTable c = some bp →
      get_mock_flights_for_route req.origin req.destination req.depDate req.retDate =
        .ok (outF, retF) →
      outF ≠ [] →
      ∃ body offs, searchFlights data r = .ok body ∧
        bodyOfferings body = some offs ∧
        3 ≤ offs.length ∧ offs.length ≤ 5 ∧
        ∀ off ∈ offs, ∃ j, 9/10 ≤ j ∧ j ≤ 11/10 ∧
          offerTotalPriceValue off =
            some (.num (round2 (bp * req.totalPassengers *
              (if req.retDate.truthy then (9/5 : ℚ) else 1) * j))) := by
  intro data r req c bp outF retF hext hcab hbp hroutes hne
  obtain ⟨res, hloop, hlen, hmem⟩ := mockOfferLoop_spec outF retF req.depDate req.retDate
    c req.totalPassengers r (List.range (3 + r.numOffersRaw % 3)) ([], [], [])
  have hrun : searchFlights data r = .ok (mockBody res.1 (res.2.2.map (·.2)) res.2.1) := by
    unfold searchFlights mockMain
    rw [hext]
    simp only [Bind.bind, Except.bind]
    rw [hroutes]
    simp only [List.isEmpty_iff, hne, if_neg, reduceIte]
    rw [← hcab] at hloop
    rw [hloop]
    simp [pure, Except.pure]
  refine ⟨_, res.1, hrun, ?_, ?_, ?_, ?_⟩
  · rfl
  · rw [hlen]
    simp
  · rw [hlen]
    have : r.numOffersRaw % 3 < 3 := Nat.mod_lt _ (by omega)
    simp
    omega
  · intro off hoff
    rcases hmem off hoff with h | ⟨k, hk, prod, refs, hb⟩
    · simp at h
    · obtain ⟨off2, prod2, refs2, hb2, hp2⟩ := buildOneOffer_spec outF retF
        req.depDate req.retDate c req.totalPassengers r k
      rw [hb] at hb2
      have hoffeq : off2 = off := by
        have h3 : (off, prod, refs) = (off2, prod2, refs2) := Except.ok.inj hb2
        exact (congrArg Prod.fst h3).symm
      refine ⟨1 + uniformJitter (r.jitter k), (jitterFactorBounds (r.jitter k)).1,
        (jitterFactorBounds (r.jitter k)).2, ?_⟩
      rw [← hoffeq]
      rw [hp2, hbp]
      rfl

/-- Static-table rows for the LHR → JFK route. -/
def lhrJfkRows : List MockFlight :=
  [{ carrier := "BA", number := "117", origin := "LHR", destination := "JFK",
     departure_time := "08:25:00", arrival_time := "11:05:00", aircraft := "777" },
   { carrier := "AA", number := "100", origin := "LHR", destination := "JFK",
     departure_time := "10:30:00", arrival_time := "13:15:00", aircraft := "787" },
   { carrier := "VS", number := "4", origin := "LHR", destination := "JFK",
     departure_time := "12:00:00", arrival_time := "14:45:00", aircraft := "A350" }]

/-- Witness for C4: a one-way LHR → JFK Economy search for one adult
yields 3 to 5 offerings priced at 450 times a jitter in [0.9, 1.1]. -/
theorem C4_witness :
    ∃ body offs, searchFlights (payloadFor "LHR" "JFK") demoRand = .ok body ∧
      bodyOfferings body = some offs ∧
      3 ≤ offs.length ∧ offs.length ≤ 5 ∧
      ∀ off ∈ offs, ∃ j, 9/10 ≤ j ∧ j ≤ 11/10 ∧
        offerTotalPriceValue off =
          some (.num (round2 ((450:ℚ) * (reqFor "LHR" "JFK").totalPassengers *
            (if (reqFor "LHR" "JFK").retDate.truthy then (9/5 : ℚ) else 1) * j))) :=
  C4_mock_offer_count_and_pricing (payloadFor "LHR" "JFK") demoRand (reqFor "LHR" "JFK")
    "Economy" 450 lhrJfkRows [] (by rfl) rfl rfl (by rfl) (by simp [lhrJfkRows])

/-- Success of a lifted interpreter step is success of the underlying
Python step. -/
theorem liftE_ok {α : Type} {x : Except PyErr α} {a : α} :
    liftE x = .ok a ↔ x = .ok a := by
  cases x <;> simp [liftE]

/-- A successful 50-slice is at most 50 long, and is the `take 50` of a
list input. -/
theorem pySlice_ok (n : Nat) (v : PyVal) (xs : List PyVal)
    (h : pySlice n v = .ok xs) :
    xs.length ≤ n ∧ ∀ l, v = .list l → xs = l.take n := by
  cases v with
  | list l =>
      simp [pySlice] at h
      subst h
      refine ⟨by simp [List.length_take], ?_⟩
      intro l2 hl
      cases hl
      rfl
  | str s =>
      simp [pySlice] at h
      subst h
      refine ⟨by simp, ?_⟩
      intro l2 hl
      cases hl
  | none => simp [pySlice] at h
  | bool b => simp [pySlice] at h
  | num q => simp [pySlice] at h
  | dict es => simp [pySlice] at h

/-- The offer record built from one offering retains that offering as
its raw payload. -/
theorem processOffering_raw (w : Wizard) (fm pm : List (PyKey × PyVal)) (idx : Nat)
    (o : PyVal) (off : Offer) (h : processOffering w fm pm idx o = .ok off) :
    off.raw = o := by
  unfold processOffering at h
  obtain ⟨a1, h1, h⟩ := exceptBindOk h
  obtain ⟨a2, h2, h⟩ := exceptBindOk h
  obtain ⟨a3, h3, h⟩ := exceptBindOk h
  obtain ⟨a4, h4, h⟩ := exceptBindOk h
  obtain ⟨a5, h5, h⟩ := exceptBindOk h
  obtain ⟨a6, h6, h⟩ := exceptBindOk h
  obtain ⟨a7, h7, h⟩ := exceptBindOk h
  simp only [pure, Except.pure, Except.ok.injEq] at h
  rw [← h]

/-- The main interpreter loop succeeds elementwise: the output has one
offer per processed offering, in order, each retaining its source
offering. -/
theorem processOfferings_spec (w : Wizard) (fm pm : List (PyKey × PyVal)) :
    ∀ (os : List PyVal) (idx : Nat) (offs : List Offer),
      processOfferings w fm pm idx os = .ok offs →
      offs.length = os.length ∧
      ∀ i, (offs.get? i).map (fun x => x.raw) = os.get? i := by
  intro os
  induction os with
  | nil =>
      intro idx offs h
      simp only [processOfferings, Except.ok.injEq] at h
      subst h
      exact ⟨rfl, fun i => by simp⟩
  | cons o os ih =>
      intro idx offs h
      simp only [processOfferings] at h
      obtain ⟨off, h1, h⟩ := exceptBindOk h
      obtain ⟨rest, h2, h⟩ := exceptBindOk h
      simp only [pure, Except.pure, Except.ok.injEq] at h
      subst h
      obtain ⟨hlen, hget⟩ := ih (idx + 1) rest h2
      refine ⟨by simp [hlen], ?_⟩
      intro i
      cases i with
      | zero => simp [processOffering_raw w fm pm idx o off h1]
      | succ n => simpa using hget n

/-- C1: the interpreter yields at most 50 offers, never more than the
offering list holds, in the offering list's order (the i-th offer is
built from the i-th offering). -/
theorem C1_interpreter_cap_and_order :
    ∀ (w : Wizard) (rd : PyVal) (offs : List Offer),
      processFlightResults w rd = .ok offs →
      offs.length ≤ 50 ∧
      ∀ l, offeringsListOf rd = some l →
        offs.length ≤ l.length ∧
        ∀ i, (offs.get? i).map (fun x => x.raw) = (l.take 50).get? i := by
  intro w rd offs h
  unfold processFlightResults at h
  obtain ⟨top, h1, h⟩ := exceptBindOk h
  rw [liftE_ok] at h1
  cases htr : top.truthy with
  | false => rw [htr] at h; simp at h
  | true =>
      rw [htr] at h
      simp only [Bool.true_eq_false, if_false, reduceIte] at h
      obtain ⟨catalogOff, h2, h⟩ := exceptBindOk h
      rw [liftE_ok] at h2
      obtain ⟨offListV, h3, h⟩ := exceptBindOk h
      rw [liftE_ok] at h3
      cases hot : offListV.truthy with
      | false => rw [hot] at h; simp at h
      | true =>
          rw [hot] at h
          simp only [Bool.true_eq_false, if_false, reduceIte] at h
          obtain ⟨refListV, h4, h⟩ := exceptBindOk h
          obtain ⟨refItems, h5, h⟩ := exceptBindOk h
          obtain ⟨maps, h6, h⟩ := exceptBindOk h
          obtain ⟨offSlice, h7, h⟩ := exceptBindOk h
          rw [liftE_ok] at h7
          rw [liftE_ok] at h
          obtain ⟨hslen, hstake⟩ := pySlice_ok 50 offListV offSlice h7
          obtain ⟨hlen, hget⟩ := processOfferings_spec w maps.1 maps.2 offSlice 0 offs h
          constructor
          · rw [hlen]; exact hslen
          · intro l hl
            unfold offeringsListOf at hl
            simp only [h1, h2, h3] at hl
            cases offListV with
            | list xs =>
                have hxl : xs = l := Option.some.inj hl
                rw [← hxl]
                have hoeq : offSlice = xs.take 50 := hstake xs rfl
                constructor
                · rw [hlen, hoeq]
                  simp only [List.length_take]
                  omega
                · intro i
                  rw [hget i, hoeq]
            | none => exact Option.noConfusion hl
            | bool b => exact Option.noConfusion hl
            | num q => exact Option.noConfusion hl
            | str s => exact Option.noConfusion hl
            | dict es => exact Option.noConfusion hl

/-- Response document with one fully-resolvable offering, shaped like a
mock-server reply. -/
def rdemoC1 : PyVal :=
  .dict [("CatalogProductOfferingsResponse", .dict [
    ("CatalogProductOfferings", .dict [
      ("CatalogProductOffering", .list [
        .dict [("id", .str "Offer_0"),
               ("TotalPrice", .dict [("code", .str "USD"), ("value", .num 450)]),
               ("ProductOptions", .list [.dict [("ProductRef", .str "Product_0")]])]])]),
    ("ReferenceList", .list [
      .dict [("@type", .str "ReferenceListFlight"),
             ("Flight", .list [
               .dict [("id", .str "Flight_0"), ("carrier", .str "BA"), ("number", .str "117"),
                      ("departureTime", .str "2026-11-01T08:25:00"),
                      ("arrivalTime", .str "2026-11-01T11:05:00"),
                      ("Origin", .dict [("value", .str "LHR")]),
                      ("Destination", .dict [("value", .str "JFK")])]])],
      .dict [("@type", .str "ReferenceListProduct"),
             ("Product", .list [
               .dict [("id", .str "Product_0"), ("@type", .str "ProductAir"),
                      ("FlightSegment", .list [
                        .dict [("Flight", .dict [("FlightRef", .str "Flight_0")])]])]])]])])]

/-- Witness for C1: the demo document processes successfully, with the
output capped by 50 and by the offering-list length. -/
theorem C1_witness :
    ∃ offs, processFlightResults wKids rdemoC1 = .ok offs ∧
      offs.length ≤ 50 ∧ ∀ l, offeringsListOf rdemoC1 = some l → offs.length ≤ l.length := by
  refine ⟨_, rfl, ?_⟩
  have h := C1_interpreter_cap_and_order wKids rdemoC1 _ rfl
  exact ⟨h.1, fun l hl => (h.2 l hl).1⟩

/-! ## Interpreter fallback and detail limits: claims C8 and C10 -/

/-- C8: when the detail collection resolves no flight for an offering,
the offer is still produced (no resolution failure), its description
holding the generic route line built from the wizard's own search
criteria (plus the return line for a round trip), followed by the
trailing price line. -/
theorem C8_unresolved_offering_fallback :
    ∀ (w : Wizard) (fm pm : List (PyKey × PyVal)) (idx : Nat)
      (offering oid tp pv pc : PyVal) (refs : List PyVal) (ps : String),
      pyGetD offering "id" (.str "") = .ok oid →
      pyGetD offering "TotalPrice" (.dict []) = .ok tp →
      pyGetD tp "value" (.num 0) = .ok pv →
      pyGetD tp "code" (.str "USD") = .ok pc →
      extractProductRefs offering = .ok refs →
      collectDetails fm pm refs = .ok [] →
      format2f pv = .ok ps →
      processOffering w fm pm idx offering =
        .ok { offer_id := oid, price := pv, currency := pc,
              flight_details := String.intercalate "\n"
                (["Flight Offer: " ++ pyStr oid,
                  "Route: " ++ w.origin ++ " → " ++ w.destination] ++
                 (if w.is_round_trip then
                   ["Return: " ++ w.destination ++ " → " ++ w.origin] else []) ++
                 ["Price: " ++ pyStr pc ++ " " ++ ps]),
              raw := offering, selected := idx == 0 } := by
  intro w fm pm idx offering oid tp pv pc refs ps h1 h2 h3 h4 h5 h6 h7
  unfold processOffering
  simp [h1, h2, h3, h4, h5, h6, h7, Bind.bind, Except.bind, pure, Except.pure]

/-- Offering whose single product reference resolves nowhere. -/
def offeringUnresolved : PyVal :=
  .dict [("id", .str "X"),
         ("TotalPrice", .dict [("code", .str "USD"), ("value", .num 100)]),
         ("ProductOptions", .list [.dict [("ProductRef", .str "missing")]])]

/-- Witness for C8: with empty reference maps, the offering above
produces the fallback offer record (round-trip wizard, so both generic
route lines appear). -/
theorem C8_witness :
    processOffering wRound [] [] 1 offeringUnresolved =
      .ok { offer_id := .str "X", price := .num 100, currency := .str "USD",
            flight_details := String.intercalate "\n"
              (["Flight Offer: " ++ pyStr (.str "X"),
                "Route: " ++ wRound.origin ++ " → " ++ wRound.destination] ++
               (if wRound.is_round_trip then
                 ["Return: " ++ wRound.destination ++ " → " ++ wRound.origin] else []) ++
               ["Price: " ++ pyStr (.str "USD") ++ " " ++ "100.00"]),
            raw := offeringUnresolved, selected := (1 : Nat) == 0 } :=
  C8_unresolved_offering_fallback wRound [] [] 1 offeringUnresolved
    (.str "X") (.dict [("code", .str "USD"), ("value", .num 100)]) (.num 100) (.str "USD")
    [.str "missing"] "100.00" rfl rfl rfl rfl rfl rfl rfl

/-- Truthiness of one field of a flight record, as the rendering reads
it (`flight.get(k, '')`). -/
def fieldTruthy (f : PyVal) (k : String) : Bool :=
  match pyGetD f k (.str "") with
  | .ok v => v.truthy
  | .error e => false

/-- C10: in the `ProductRef` indirection path only the first 5 product
references feed the itinerary (the detail loop is invariant under
truncating the reference list to 5 when the truncated loop already
produced lines), and a rendered flight yields a line exactly when both
its carrier and its number are truthy (non-empty). -/
theorem C10_ref_limit_and_required_fields :
    (∀ (fm pm : List (PyKey × PyVal)) (refs : List PyVal) (d : List String),
      productLoop fm pm (refs.take 5) = .ok d → d ≠ [] →
      collectDetails fm pm refs = .ok d ∧
      collectDetails fm pm refs = collectDetails fm pm (refs.take 5)) ∧
    (∀ (flight : PyVal) (ls : List String),
      renderFlight flight = .ok ls →
      (ls ≠ [] ↔ (fieldTruthy flight "carrier" = true ∧ fieldTruthy flight "number" = true))) := by
  constructor
  · intro fm pm refs d h hne
    have hcd : collectDetails fm pm refs = .ok d := by
      unfold collectDetails
      rw [h]
      simp [Bind.bind, Except.bind, List.isEmpty_iff, hne, pure, Except.pure]
    refine ⟨hcd, ?_⟩
    rw [hcd]
    unfold collectDetails
    rw [List.take_take]
    simp only [min_self]
    rw [h]
    simp [Bind.bind, Except.bind, List.isEmpty_iff, hne, pure, Except.pure]
  · intro flight ls h
    cases flight with
    | dict es =>
        unfold renderFlight at h
        simp only [pyGetD, Bind.bind, Except.bind] at h
        by_cases hc : (((pyLookup es "carrier").getD (.str "")).truthy &&
            ((pyLookup es "number").getD (.str "")).truthy) = true
        · rw [if_pos hc] at h
          simp only [pure, Except.pure, Except.ok.injEq] at h
          subst h
          simp only [fieldTruthy, pyGetD]
          constructor
          · intro hx
            exact ⟨(Bool.and_eq_true _ _ ▸ hc).1, (Bool.and_eq_true _ _ ▸ hc).2⟩
          · intro hx
            simp
        · rw [if_neg hc] at h
          simp only [pure, Except.pure, Except.ok.injEq] at h
          subst h
          simp only [fieldTruthy, pyGetD]
          constructor
          · intro hx
            exact absurd rfl hx
          · intro hx
            exact absurd (Bool.and_eq_true _ _ ▸ And.intro hx.1 hx.2) hc
    | none => simp [renderFlight, pyGetD, Bind.bind, Except.bind] at h
    | bool b => simp [renderFlight, pyGetD, Bind.bind, Except.bind] at h
    | num q => simp [renderFlight, pyGetD, Bind.bind, Except.bind] at h
    | str s => simp [renderFlight, pyGetD, Bind.bind, Except.bind] at h
    | list l => simp [renderFlight, pyGetD, Bind.bind, Except.bind] at h

/-- Resolvable flight record with carrier and number but no times. -/
def flightBA : PyVal :=
  .dict [("id", .str "F0"), ("carrier", .str "BA"), ("number", .str "117"),
         ("Origin", .dict [("value", .str "LHR")]),
         ("Destination", .dict [("value", .str "JFK")])]

/-- Flight record lacking a flight number. -/
def flightNoNum : PyVal :=
  .dict [("id", .str "F1"), ("carrier", .str "BA"),
         ("Origin", .dict [("value", .str "LHR")]),
         ("Destination", .dict [("value", .str "JFK")])]

/-- Flight map holding the one resolvable record. -/
def fmC10 : List (PyKey × PyVal) := [(.str "F0", flightBA)]

/-- Product map with one ProductAir pointing at the flight. -/
def pmC10 : List (PyKey × PyVal) :=
  [(.str "P0", .dict [("id", .str "P0"), ("@type", .str "ProductAir"),
     ("FlightSegment", .list [.dict [("Flight", .dict [("FlightRef", .str "F0")])]])])]

/-- Six product references; the sixth lies beyond the 5-reference
limit. -/
def refsC10 : List PyVal :=
  [.str "P0", .str "P1", .str "P2", .str "P3", .str "P4", .str "P5"]

/-- Witness for C10: with six references the detail collection equals
its own run on the first five (the sixth is ignored), and the
number-less flight renders no line because its number field is not
truthy. -/
theorem C10_witness :
    (collectDetails fmC10 pmC10 refsC10 = .ok ["BA117: LHR → JFK"] ∧
     collectDetails fmC10 pmC10 refsC10 = collectDetails fmC10 pmC10 (refsC10.take 5)) ∧
    ¬(fieldTruthy flightNoNum "carrier" = true ∧ fieldTruthy flightNoNum "number" = true) := by
  constructor
  · exact C10_ref_limit_and_required_fields.1 fmC10 pmC10 refsC10 ["BA117: LHR → JFK"]
      (by rfl) (by simp)
  · intro hc
    exact (C10_ref_limit_and_required_fields.2 flightNoNum [] (by rfl)).mpr hc rfl

/-! ## Error policy of the interpreter: claim C2 -/

/-- Hashable scalar values (always usable as map keys and f-string
fragments). -/
def WTPrim : PyVal → Bool
  | .list _ => false
  | .dict _ => false
  | _ => true

/-- Well-typed `ProductOptions` entry: a dict whose `ProductRef`, when
present, is hashable, and whose `FlightRefs`, when present, is a list
of hashables. Any of the two keys may be missing. -/
def WTOption (o : PyVal) : Bool :=
  match o with
  | .dict es =>
      (match pyLookup es "ProductRef" with
       | some v => WTPrim v
       | Option.none => true) &&
      (match pyLookup es "FlightRefs" with
       | some (.list rs) => rs.all WTPrim
       | some _ => false
       | Option.none => true)
  | _ => false

/-- Well-typed offering: a dict whose `TotalPrice`, when present, is a
dict with a numeric (or boolean) `value` when present, and whose
`ProductOptions`, when present, is a list of well-typed options. All
detail may be missing. -/
def WTOffering (o : PyVal) : Bool :=
  match o with
  | .dict es =>
      (match pyLookup es "TotalPrice" with
       | some (.dict tes) =>
           (match pyLookup tes "value" with
            | some (.num _) => true
            | some (.bool _) => true
            | some _ => false
            | Option.none => true)
       | some _ => false
       | Option.none => true) &&
      (match pyLookup es "ProductOptions" with
       | some (.list os) => os.all WTOption
       | some _ => false
       | Option.none => true)
  | _ => false

/-- Well-typed flight segment: a dict whose `Flight` entry, when
present, is a dict with a hashable `FlightRef` (when present) or a
hashable scalar. -/
def WTSegment (s : PyVal) : Bool :=
  match s with
  | .dict es =>
      (match pyLookup es "Flight" with
       | some (.dict fes) =>
           (match pyLookup fes "FlightRef" with
            | some v => WTPrim v
            | Option.none => true)
       | some v => WTPrim v
       | Option.none => true)
  | _ => false

/-- Well-typed product record: a dict whose `FlightSegment`, when
present, is a list of well-typed segments. -/
def WTProduct (p : PyVal) : Bool :=
  match p with
  | .dict es =>
      (match pyLookup es "FlightSegment" with
       | some (.list ss) => ss.all WTSegment
       | some _ => false
       | Option.none => true)
  | _ => false

/-- Flight map whose stored records are dicts (as `_process_flight_results`
builds them). -/
def WTFlightMap (fm : List (PyKey × PyVal)) : Bool :=
  fm.all (fun e => match e.2 with | .dict _ => true | _ => false)

/-- Product map whose stored records are well-typed products. -/
def WTProductMap (pm : List (PyKey × PyVal)) : Bool :=
  pm.all (fun e => WTProduct e.2)

/-- A positive key-membership test implies the lookup finds a value. -/
theorem lookupFold_isSome (k : String) :
    ∀ (es : List (String × PyVal)) (acc : Option PyVal),
      (es.foldl (fun a e => if e.1 = k then some e.2 else a) acc).isSome =
        (acc.isSome || es.any (fun e => decide (e.1 = k))) := by
  intro es
  induction es with
  | nil => intro acc; simp
  | cons e es ih =>
      intro acc
      by_cases he : e.1 = k
      · simp [List.foldl_cons, he, ih]
      · simp [List.foldl_cons, he, ih]

/-- Containment in a dict implies the string subscript succeeds. -/
theorem containsImpliesSubscript (es : List (String × PyVal)) (k : String)
    (h : (es.any (fun e => decide (e.1 = k))) = true) :
    ∃ v, pySubscriptStr (.dict es) k = .ok v := by
  have hs : (pyLookup es k).isSome = true := by
    unfold pyLookup
    rw [lookupFold_isSome]
    simp [h]
  cases hv : pyLookup es k with
  | none => rw [hv] at hs; simp at hs
  | some v => exact ⟨v, by simp [pySubscriptStr, hv]⟩

/-- Values found in a map come from its entries. -/
theorem mapFind_mem (m : List (PyKey × PyVal)) (k : PyKey) (v : PyVal)
    (h : mapFind m k = some v) : ∃ e, e ∈ m ∧ e.2 = v := by
  unfold mapFind at h
  cases hf : m.find? (fun e => decide (e.1 = k)) with
  | none => rw [hf] at h; simp at h
  | some e =>
      rw [hf] at h
      simp at h
      exact ⟨e, List.mem_of_find?_eq_some hf, h⟩

/-- Rendering any flight dict succeeds. -/
theorem renderFlight_dict_ok (es : List (String × PyVal)) :
    ∃ ls, renderFlight (.dict es) = .ok ls := by
  unfold renderFlight
  simp only [pyGetD, Bind.bind, Except.bind, pure, Except.pure]
  by_cases hc : (((pyLookup es "carrier").getD (.str "")).truthy &&
      ((pyLookup es "number").getD (.str "")).truthy) = true
  · rw [if_pos hc]
    exact ⟨_, rfl⟩
  · rw [if_neg hc]
    exact ⟨[], rfl⟩

/-- Hashable scalars convert to keys. -/
theorem toKey_prim_ok (v : PyVal) (h : WTPrim v = true) : ∃ k, toKey v = .ok k := by
  cases v <;> simp [WTPrim] at h <;> exact ⟨_, rfl⟩

/-- Entries of a well-typed flight map are dicts. -/
theorem flightMap_dict (fm : List (PyKey × PyVal)) (k : PyKey) (fl : PyVal)
    (hfm : WTFlightMap fm = true) (h : mapFind fm k = some fl) :
    ∃ fes, fl = .dict fes := by
  obtain ⟨e, hmem, he2⟩ := mapFind_mem fm k fl h
  have hp := List.all_eq_true.mp hfm e hmem
  rw [he2] at hp
  cases fl with
  | dict fes => exact ⟨fes, rfl⟩
  | none => simp at hp
  | bool b => simp at hp
  | num q => simp at hp
  | str t => simp at hp
  | list l => simp at hp

/-- Rendering of a flight-map hit (or miss) always succeeds against a
dict-valued flight map. -/
theorem mapHit_render_ok (fm : List (PyKey × PyVal)) (k : PyKey)
    (hfm : WTFlightMap fm = true) :
    ∃ ls, (if ((mapFind fm k).getD .none).truthy = true
           then renderFlight ((mapFind fm k).getD .none) else pure []) = .ok ls := by
  cases hmf : mapFind fm k with
  | none => exact ⟨[], by simp [PyVal.truthy, pure, Except.pure]⟩
  | some fl =>
      obtain ⟨fes, rfl⟩ := flightMap_dict fm k fl hfm hmf
      by_cases hft : (PyVal.dict fes).truthy = true
      · obtain ⟨ls, hrf⟩ := renderFlight_dict_ok fes
        exact ⟨ls, by simp [hft, hrf]⟩
      · exact ⟨[], by simp [hft, pure, Except.pure]⟩

/-- One segment's rendering succeeds on a well-typed segment against a
dict-valued flight map. -/
theorem segLines_ok (fm : List (PyKey × PyVal)) (s : PyVal)
    (hfm : WTFlightMap fm = true) (hs : WTSegment s = true) :
    ∃ ls, segLines fm s = .ok ls := by
  cases s with
  | dict es =>
      unfold segLines
      simp only [pyGetD, Bind.bind, Except.bind]
      have hflid : WTPrim (segmentFlightId ((pyLookup es "Flight").getD (.dict []))) = true := by
        simp only [WTSegment] at hs
        cases hfl : pyLookup es "Flight" with
        | none => simp [hfl, segmentFlightId, pyLookup, WTPrim]
        | some fl =>
            rw [hfl] at hs
            cases fl with
            | dict fes =>
                simp only [hfl, Option.getD_some, segmentFlightId]
                simp at hs
                cases hfr : pyLookup fes "FlightRef" with
                | none => simp [hfr, WTPrim]
                | some fr =>
                    rw [hfr] at hs
                    simp at hs
                    simpa [hfr] using hs
            | none => simp [hfl, segmentFlightId, WTPrim]
            | bool b => simp [hfl, segmentFlightId, WTPrim]
            | num q => simp [hfl, segmentFlightId, WTPrim]
            | str t => simp [hfl, segmentFlightId, WTPrim]
            | list l => simp [WTPrim] at hs
      by_cases ht : (segmentFlightId ((pyLookup es "Flight").getD (.dict []))).truthy = true
      · rw [if_pos ht]
        obtain ⟨k, hk⟩ := toKey_prim_ok _ hflid
        rw [hk]
        simp only [Except.bind]
        exact mapHit_render_ok fm k hfm
      · rw [if_neg ht]
        exact ⟨[], rfl⟩
  | none => exact absurd hs (by simp [WTSegment])
  | bool b => exact absurd hs (by simp [WTSegment])
  | num q => exact absurd hs (by simp [WTSegment])
  | str t => exact absurd hs (by simp [WTSegment])
  | list l => exact absurd hs (by simp [WTSegment])

/-- Monadic map over elementwise-successful computations succeeds. -/
theorem mapM_ok {α : Type} (f : PyVal → Except PyErr α) (l : List PyVal)
    (h : ∀ x ∈ l, ∃ y, f x = .ok y) : ∃ ys, l.mapM f = .ok ys := by
  induction l with
  | nil => exact ⟨[], rfl⟩
  | cons x xs ih =>
      obtain ⟨y, hy⟩ := h x (by simp)
      obtain ⟨ys, hys⟩ := ih (fun z hz => h z (by simp [hz]))
      exact ⟨y :: ys, by
        rw [List.mapM_cons, hy, hys]
        simp [Bind.bind, Except.bind, pure, Except.pure]⟩

/-- One product reference resolves without failure when it is hashable
and the two maps are well-typed. -/
theorem productLines_ok (fm pm : List (PyKey × PyVal)) (r : PyVal)
    (hfm : WTFlightMap fm = true) (hpm : WTProductMap pm = true)
    (hr : WTPrim r = true) : ∃ ls, productLines fm pm r = .ok ls := by
  obtain ⟨k, hk⟩ := toKey_prim_ok r hr
  unfold productLines
  rw [hk]
  simp only [Bind.bind, Except.bind]
  cases hmf : mapFind pm k with
  | none => exact ⟨[], by simp [PyVal.truthy, pure, Except.pure]⟩
  | some p =>
      obtain ⟨e, hmem, he2⟩ := mapFind_mem pm k p hmf
      have hwp : WTProduct p = true := by
        have := List.all_eq_true.mp hpm e hmem
        rwa [he2] at this
      cases p with
      | dict pes =>
          by_cases hpt : (PyVal.dict pes).truthy = true
          · rw [if_pos (by simpa using hpt)]
            simp only [Option.getD_some, pyGetD, Bind.bind, Except.bind]
            by_cases hta : (match (pyLookup pes "@type").getD .none with
                | PyVal.str s => decide (s = "ProductAir")
                | _ => false) = true
            · rw [if_pos hta]
              simp only [WTProduct] at hwp
              cases hfs : pyLookup pes "FlightSegment" with
              | none =>
                  simp only [hfs, Option.getD_none]
                  obtain ⟨ys, hys⟩ := mapM_ok (segLines fm) [] (by simp)
                  exact ⟨ys.flatten, by
                    simp only [pyIter, Except.bind]
                    rw [hys]
                    simp [pure, Except.pure]⟩
              | some fsv =>
                  rw [hfs] at hwp
                  cases fsv with
                  | list ss =>
                      simp only [hfs, Option.getD_some]
                      obtain ⟨ys, hys⟩ := mapM_ok (segLines fm) ss (by
                        intro x hx
                        exact segLines_ok fm x hfm (List.all_eq_true.mp hwp x hx))
                      exact ⟨ys.flatten, by
                        simp only [pyIter, Except.bind]
                        rw [hys]
                        simp [pure, Except.pure]⟩
                  | none => simp at hwp
                  | bool b => simp at hwp
                  | num q => simp at hwp
                  | str t => simp at hwp
                  | dict ds => simp at hwp
            · rw [if_neg hta]
              exact ⟨[], rfl⟩
          · rw [if_neg (by simpa using hpt)]
            exact ⟨[], rfl⟩
      | none => simp [WTProduct] at hwp
      | bool b => simp [WTProduct] at hwp
      | num q => simp [WTProduct] at hwp
      | str t => simp [WTProduct] at hwp
      | list l => simp [WTProduct] at hwp

/-- The truncated product-reference loop succeeds on hashable
references against well-typed maps. -/
theorem productLoop_ok (fm pm : List (PyKey × PyVal)) (refs : List PyVal)
    (hfm : WTFlightMap fm = true) (hpm : WTProductMap pm = true)
    (hr : ∀ r ∈ refs, WTPrim r = true) : ∃ ls, productLoop fm pm refs = .ok ls := by
  obtain ⟨ys, hys⟩ := mapM_ok (productLines fm pm) refs
    (fun x hx => productLines_ok fm pm x hfm hpm (hr x hx))
  exact ⟨ys.flatten, by
    unfold productLoop
    rw [hys]
    simp [Bind.bind, Except.bind, pure, Except.pure]⟩

/-- The direct-reference fallback loop succeeds on hashable references
against a dict-valued flight map. -/
theorem directLoop_ok (fm : List (PyKey × PyVal)) (refs : List PyVal)
    (hfm : WTFlightMap fm = true)
    (hr : ∀ r ∈ refs, WTPrim r = true) : ∃ ls, directLoop fm refs = .ok ls := by
  obtain ⟨ys, hys⟩ := mapM_ok (fun r => do
      let k ← toKey r
      let flight := (mapFind fm k).getD .none
      if flight.truthy then renderFlight flight else pure []) refs (fun x hx => by
    obtain ⟨k, hk⟩ := toKey_prim_ok x (hr x hx)
    obtain ⟨ls, hls⟩ := mapHit_render_ok fm k hfm
    exact ⟨ls, by
      simp only []
      rw [hk]
      simp only [Bind.bind, Except.bind]
      exact hls⟩)
  exact ⟨ys.flatten, by
    unfold directLoop
    rw [hys]
    simp [Bind.bind, Except.bind, pure, Except.pure]⟩

/-- The detail collection for one offering succeeds on hashable
references against well-typed maps. -/
theorem collectDetails_ok (fm pm : List (PyKey × PyVal)) (refs : List PyVal)
    (hfm : WTFlightMap fm = true) (hpm : WTProductMap pm = true)
    (hr : ∀ r ∈ refs, WTPrim r = true) : ∃ ls, collectDetails fm pm refs = .ok ls := by
  obtain ⟨d, hd⟩ := productLoop_ok fm pm (refs.take 5) hfm hpm
    (fun r hrm => hr r (List.mem_of_mem_take hrm))
  unfold collectDetails
  rw [hd]
  simp only [Bind.bind, Except.bind]
  by_cases hde : d.isEmpty = true
  · rw [if_pos hde]
    exact directLoop_ok fm refs hfm hr
  · rw [if_neg hde]
    exact ⟨d, rfl⟩

/-- Extraction of product references succeeds on a well-typed offering
and yields only hashable references. -/
theorem extractProductRefs_ok (es : List (String × PyVal))
    (hpo : (match pyLookup es "ProductOptions" with
            | some (.list os) => os.all WTOption
            | some _ => false
            | Option.none => true) = true) :
    ∃ refs, extractProductRefs (.dict es) = .ok refs ∧ ∀ r ∈ refs, WTPrim r = true := by
  have hfold : ∀ (options : List PyVal), (∀ o ∈ options, WTOption o = true) →
      ∀ (acc : List PyVal), (∀ r ∈ acc, WTPrim r = true) →
      ∃ refs, (options.foldlM (fun acc option => do
        let hasPR ← pyContains option "ProductRef"
        if hasPR then do
          let v ← pySubscriptStr option "ProductRef"
          pure (acc ++ [v])
        else do
          let hasFR ← pyContains option "FlightRefs"
          if hasFR then do
            let frv ← pyGetD option "FlightRefs" (.list [])
            let frs ← pyIter frv
            pure (acc ++ frs)
          else pure acc) acc) = .ok refs ∧ ∀ r ∈ refs, WTPrim r = true := by
    intro options
    induction options with
    | nil => intro _ acc hacc; exact ⟨acc, rfl, hacc⟩
    | cons o os ih =>
        intro hos acc hacc
        have ho : WTOption o = true := hos o (by simp)
        cases o with
        | dict oes =>
            simp only [WTOption, Bool.and_eq_true] at ho
            simp only [List.foldlM_cons, pyContains, Bind.bind, Except.bind]
            by_cases hpr : (oes.any (fun e => decide (e.1 = "ProductRef"))) = true
            · rw [if_pos hpr]
              obtain ⟨v, hv⟩ := containsImpliesSubscript oes "ProductRef" hpr
              rw [hv]
              simp only [Except.bind, pure, Except.pure]
              have hvp : WTPrim v = true := by
                simp only [pySubscriptStr] at hv
                cases hlk : pyLookup oes "ProductRef" with
                | none => rw [hlk] at hv; simp at hv
                | some v2 =>
                    rw [hlk] at hv
                    simp only [Except.ok.injEq] at hv
                    rw [hlk] at ho
                    rw [← hv]
                    exact ho.1
              exact ih (fun z hz => hos z (by simp [hz])) (acc ++ [v]) (by
                intro r hrm
                rcases List.mem_append.mp hrm with h1 | h2
                · exact hacc r h1
                · simp at h2; subst h2; exact hvp)
            · rw [if_neg hpr]
              by_cases hfr : (oes.any (fun e => decide (e.1 = "FlightRefs"))) = true
              · rw [if_pos hfr]
                have hsome : (pyLookup oes "FlightRefs").isSome = true := by
                  unfold pyLookup
                  rw [lookupFold_isSome]
                  simp [hfr]
                cases hlk : pyLookup oes "FlightRefs" with
                | none => rw [hlk] at hsome; simp at hsome
                | some frv =>
                    rw [hlk] at ho
                    cases frv with
                    | list rs =>
                        simp only [pyGetD, hlk, Option.getD_some, Except.bind, pyIter,
                          pure, Except.pure]
                        exact ih (fun z hz => hos z (by simp [hz])) (acc ++ rs) (by
                          intro r hrm
                          rcases List.mem_append.mp hrm with h1 | h2
                          · exact hacc r h1
                          · exact List.all_eq_true.mp ho.2 r h2)
                    | none => exact Bool.noConfusion ho.2
                    | bool b => exact Bool.noConfusion ho.2
                    | num q => exact Bool.noConfusion ho.2
                    | str t => exact Bool.noConfusion ho.2
                    | dict ds => exact Bool.noConfusion ho.2
              · rw [if_neg hfr]
                exact ih (fun z hz => hos z (by simp [hz])) acc hacc
        | none => simp [WTOption] at ho
        | bool b => simp [WTOption] at ho
        | num q => simp [WTOption] at ho
        | str t => simp [WTOption] at ho
        | list l => simp [WTOption] at ho
  unfold extractProductRefs
  simp only [pyGetD, Bind.bind, Except.bind]
  cases hpo2 : pyLookup es "ProductOptions" with
  | none =>
      simp only [hpo2, Option.getD_none, pyIter, Except.bind]
      exact hfold [] (by simp) [] (by simp)
  | some pov =>
      rw [hpo2] at hpo
      cases pov with
      | list os =>
          simp only [hpo2, Option.getD_some, pyIter, Except.bind]
          exact hfold os (List.all_eq_true.mp hpo) [] (by simp)
      | none => simp at hpo
      | bool b => simp at hpo
      | num q => simp at hpo
      | str t => simp at hpo
      | dict ds => simp at hpo

/-- Processing one well-typed offering never fails, however much of its
detail is missing. -/
theorem processOffering_ok (w : Wizard) (fm pm : List (PyKey × PyVal)) (idx : Nat)
    (o : PyVal) (hfm : WTFlightMap fm = true) (hpm : WTProductMap pm = true)
    (ho : WTOffering o = true) : ∃ off, processOffering w fm pm idx o = .ok off := by
  cases o with
  | dict es =>
      simp only [WTOffering, Bool.and_eq_true] at ho
      obtain ⟨hTP, hPO⟩ := ho
      obtain ⟨refs, hrefs, hprim⟩ := extractProductRefs_ok es hPO
      obtain ⟨dls, hdls⟩ := collectDetails_ok fm pm refs hfm hpm hprim
      unfold processOffering
      simp only [pyGetD, Bind.bind, Except.bind]
      cases hTPl : pyLookup es "TotalPrice" with
      | none =>
          simp only [hTPl, Option.getD_none] at hTP ⊢
          simp only [pyLookup, List.foldl, Option.getD_none]
          rw [hrefs]
          simp only [Except.bind]
          rw [hdls]
          simp only [Except.bind, format2f]
          exact ⟨_, rfl⟩
      | some tpv =>
          rw [hTPl] at hTP
          cases tpv with
          | dict tes =>
              have hTP2 : (match pyLookup tes "value" with
                  | some (.num a) => true
                  | some (.bool a) => true
                  | some v => false
                  | Option.none => true) = true := hTP
              simp only [hTPl, Option.getD_some]
              cases hvl : pyLookup tes "value" with
              | none =>
                  simp only [hvl, Option.getD_none]
                  rw [hrefs]
                  simp only [Except.bind]
                  rw [hdls]
                  simp only [Except.bind, format2f]
                  exact ⟨_, rfl⟩
              | some pv =>
                  rw [hvl] at hTP2
                  cases pv with
                  | num q =>
                      simp only [hvl, Option.getD_some]
                      rw [hrefs]
                      simp only [Except.bind]
                      rw [hdls]
                      simp only [Except.bind, format2f]
                      exact ⟨_, rfl⟩
                  | bool b =>
                      simp only [hvl, Option.getD_some]
                      rw [hrefs]
                      simp only [Except.bind]
                      rw [hdls]
                      simp only [Except.bind, format2f]
                      exact ⟨_, rfl⟩
                  | none => exact Bool.noConfusion hTP2
                  | str t => exact Bool.noConfusion hTP2
                  | list l => exact Bool.noConfusion hTP2
                  | dict ds => exact Bool.noConfusion hTP2
          | none => exact Bool.noConfusion hTP
          | bool b => exact Bool.noConfusion hTP
          | num q => exact Bool.noConfusion hTP
          | str t => exact Bool.noConfusion hTP
          | list l => exact Bool.noConfusion hTP
  | none => exact Bool.noConfusion ho
  | bool b => exact Bool.noConfusion ho
  | num q => exact Bool.noConfusion ho
  | str t => exact Bool.noConfusion ho
  | list l => exact Bool.noConfusion ho

/-- The whole interpreter loop never fails on well-typed offerings and
maps, producing one offer per offering. -/
theorem processOfferings_ok (w : Wizard) (fm pm : List (PyKey × PyVal))
    (hfm : WTFlightMap fm = true) (hpm : WTProductMap pm = true) :
    ∀ (os : List PyVal) (idx : Nat), (∀ o ∈ os, WTOffering o = true) →
      ∃ offs, processOfferings w fm pm idx os = .ok offs ∧ offs.length = os.length := by
  intro os
  induction os with
  | nil => intro idx _; exact ⟨[], rfl, rfl⟩
  | cons o os ih =>
      intro idx hos
      obtain ⟨off, hoff⟩ := processOffering_ok w fm pm idx o hfm hpm (hos o (by simp))
      obtain ⟨offs, hoffs, hlen⟩ := ih (idx + 1) (fun z hz => hos z (by simp [hz]))
      exact ⟨off :: offs, by
        simp only [processOfferings, hoff, Bind.bind, Except.bind]
        rw [hoffs]
        simp [pure, Except.pure], by simp [hlen]⟩

/-- Lifted bind inversion specialised to the hard-failure error. -/
theorem exceptBindErrNVR {α β : Type} {x : Except PyErr α} {f : α → Except InterpErr β}
    (h : (liftE x >>= f) = .error .noValidResponse) :
    ∃ a, x = .ok a ∧ f a = .error .noValidResponse := by
  cases x with
  | ok a => exact ⟨a, rfl, h⟩
  | error e => simp [liftE, Bind.bind, Except.bind] at h

/-- C2: the interpreter raises its hard "No valid response" failure
exactly when the top-level `CatalogProductOfferingsResponse` entry is
missing or falsy; a present container with a zero-offering list raises
the distinct "no flight offers found" user message (not a propagated
exception); and per-offer detail may be arbitrarily partial or missing
without failing the loop. -/
theorem C2_error_policy :
    (∀ (w : Wizard) (rd : PyVal),
      processFlightResults w rd = .error .noValidResponse ↔
      ∃ v, pyGetD rd "CatalogProductOfferingsResponse" .none = .ok v ∧ v.truthy = false) ∧
    (∀ (w : Wizard) (rd top co : PyVal),
      pyGetD rd "CatalogProductOfferingsResponse" .none = .ok top →
      top.truthy = true →
      pyGetD top "CatalogProductOfferings" (.dict []) = .ok co →
      pyGetD co "CatalogProductOffering" (.list []) = .ok (.list []) →
      processFlightResults w rd = .error .noFlightOffersFound) ∧
    (∀ (w : Wizard) (fm pm : List (PyKey × PyVal)) (os : List PyVal) (idx : Nat),
      WTFlightMap fm = true → WTProductMap pm = true →
      (∀ o ∈ os, WTOffering o = true) →
      ∃ offs, processOfferings w fm pm idx os = .ok offs ∧ offs.length = os.length) := by
  refine ⟨?_, ?_, ?_⟩
  · intro w rd
    constructor
    · intro h
      unfold processFlightResults at h
      cases hx : pyGetD rd "CatalogProductOfferingsResponse" .none with
      | error e => rw [hx] at h; simp [liftE, Bind.bind, Except.bind] at h
      | ok top =>
          rw [hx] at h
          simp only [liftE, Bind.bind, Except.bind] at h
          cases htr : top.truthy with
          | false => exact ⟨top, rfl, htr⟩
          | true =>
              rw [htr] at h
              simp only [Bool.true_eq_false, if_false, reduceIte] at h
              obtain ⟨co, h2, h⟩ := exceptBindErrNVR h
              obtain ⟨olv, h3, h⟩ := exceptBindErrNVR h
              cases hol : olv.truthy with
              | false => rw [hol] at h; simp at h
              | true =>
                  rw [hol] at h
                  simp only [Bool.true_eq_false, if_false, reduceIte] at h
                  obtain ⟨rlv, h4, h⟩ := exceptBindErrNVR h
                  obtain ⟨ri, h5, h⟩ := exceptBindErrNVR h
                  obtain ⟨mps, h6, h⟩ := exceptBindErrNVR h
                  obtain ⟨slice, h7, h⟩ := exceptBindErrNVR h
                  cases hp : processOfferings w mps.1 mps.2 0 slice with
                  | ok v => rw [hp] at h; simp [liftE] at h
                  | error e => rw [hp] at h; simp [liftE] at h
    · rintro ⟨v, hv, htr⟩
      unfold processFlightResults
      rw [hv]
      simp [liftE, Bind.bind, Except.bind, htr]
  · intro w rd top co h1 htr h2 h3
    unfold processFlightResults
    rw [h1]
    simp only [liftE, Bind.bind, Except.bind, htr, Bool.true_eq_false, if_false, reduceIte]
    rw [h2]
    simp only [Except.bind]
    rw [h3]
    simp [PyVal.truthy]
  · intro w fm pm os idx hfm hpm hos
    exact processOfferings_ok w fm pm hfm hpm os idx hos

/-- Response with the containers present but zero offerings. -/
def rdEmptyOffers : PyVal :=
  .dict [("CatalogProductOfferingsResponse",
          .dict [("CatalogProductOfferings",
                  .dict [("CatalogProductOffering", .list [])])])]

/-- Witness for C2: the empty dict hard-fails, the zero-offering
response gets the "no flight offers found" message, and a detail-free
offering still processes into one offer. -/
theorem C2_witness :
    processFlightResults wRound (.dict []) = .error .noValidResponse ∧
    processFlightResults wRound rdEmptyOffers = .error .noFlightOffersFound ∧
    (∃ offs, processOfferings wRound [] [] 0 [.dict [("id", .str "o")]] = .ok offs ∧
      offs.length = 1) := by
  refine ⟨?_, ?_, ?_⟩
  · exact (C2_error_policy.1 wRound (.dict [])).mpr ⟨.none, rfl, rfl⟩
  · exact C2_error_policy.2.1 wRound rdEmptyOffers
      (.dict [("CatalogProductOfferings", .dict [("CatalogProductOffering", .list [])])])
      (.dict [("CatalogProductOffering", .list [])]) rfl rfl rfl rfl
  · exact C2_error_policy.2.2 wRound [] [] [.dict [("id", .str "o")]] 0 rfl rfl
      (by intro o ho; simp at ho; subst ho; decide)
